import Mathlib

/-!
Verification of the Synchronization & Webhook Ingestion Engine of the
Xeno_Shopify repository, as a shallow embedding in Lean 4.

The embedding follows the TypeScript source:
* `src/services/shopify.ts` (`ShopifyService`): pagination loops,
  `upsertCustomer` / `upsertOrder` / `upsertProduct`, sync-log helpers
  (`getLastSyncTime`, `updateLastSyncTime`, `resetSyncTime`,
  `forceSyncOrders`, `cleanupOldRecords`).
* the scheduler module: `retrySync`, `shouldSync`, `syncTenant`,
  `logSyncResult`, `cleanupSyncLogs`, `syncTenantById`.
* `src/app/api/webhooks/shopify/route.ts`: `verifyWebhook`,
  `logWebhookRequest`, the `POST` pipeline, `detectCartAbandonment`.

Conventions of the embedding:
* Time is a `Nat` (milliseconds since epoch), passed explicitly where the
  code calls `new Date()` / `Date.now()`.
* JavaScript numbers produced by `parseFloat` are modelled by `JsNum`:
  either `nan` or an exact rational; `parseFloat` is modelled on plain
  decimal strings (optional sign, digits, optional fraction), which covers
  every value the Shopify payload fields can take in the claims.
* Database tables are Lean lists of rows; Prisma's generated primary keys
  are modelled by a `nextId` counter in the database state.  `findFirst`
  with `orderBy createdAt desc` is modelled by `List.find?` over a list
  kept newest-first (every write prepends, and the clock is monotone).
* Fallible upstream calls are `Except String`-valued oracles.
-/

/-- JavaScript number as produced by `parseFloat`: NaN or an exact value. -/
inductive JsNum where
  | nan : JsNum
  | num : Rat → JsNum
deriving DecidableEq, Repr

/-- Accumulate a run of leading decimal digits: returns the value read so
far, the number of digits consumed, and the rest of the characters. -/
def parseDigitsAux : List Char → Nat → Nat → Nat × Nat × List Char
  | [], v, n => (v, n, [])
  | c :: cs, v, n =>
    if c.isDigit then parseDigitsAux cs (v * 10 + (c.toNat - 48)) (n + 1)
    else (v, n, c :: cs)

/-- Model of JavaScript `parseFloat` on plain decimal strings: skip
leading whitespace, optional sign, then the longest prefix of the form
`digits[.digits]`; NaN when no digit is found.  (Exponent and `Infinity`
forms do not occur in the payload fields under study.) -/
def jsParseFloat (s : String) : JsNum :=
  let cs := s.data.dropWhile Char.isWhitespace
  let (neg, cs1) :=
    match cs with
    | '-' :: rest => (true, rest)
    | '+' :: rest => (false, rest)
    | _ => (false, cs)
  let (ip, ni, rest) := parseDigitsAux cs1 0 0
  let (fp, nf) :=
    match rest with
    | '.' :: r2 =>
      let (fv, fn, _) := parseDigitsAux r2 0 0
      (fv, fn)
    | _ => (0, 0)
  if ni = 0 && nf = 0 then JsNum.nan
  else
    let mag : Rat := (ip : Rat) + (fp : Rat) / ((10 : Rat) ^ nf)
    JsNum.num (if neg then -mag else mag)

/-- JavaScript `x || d` for an optional string field: `undefined`/`null`
and the empty string are falsy and select the default. -/
def jsOrString (x : Option String) (d : String) : String :=
  match x with
  | none => d
  | some s => if s = "" then d else s

/-- `parseFloat(x)` on an optional field with **no** `|| '0'` fallback:
JavaScript coerces `undefined` to the string `"undefined"`, so a missing
field parses to NaN. -/
def parseFloatField (x : Option String) : JsNum :=
  match x with
  | none => JsNum.nan
  | some s => jsParseFloat s

/-- `parseFloat(x || '0')`: missing or empty fields fall back to `'0'`,
but a present non-empty invalid string still reaches `parseFloat`. -/
def parseFloatOrZero (x : Option String) : JsNum :=
  jsParseFloat (jsOrString x "0")

/-- `x ? x.split(', ') : []` on an optional tags string (JS truthiness:
`undefined` and `''` give the empty list). -/
def splitTags (x : Option String) : List String :=
  match x with
  | none => []
  | some s => if s = "" then [] else s.splitOn ", "

/-- `x ? x : null` on an optional string (used for
`processed_at ? new Date(processed_at) : null`); the date value itself is
kept as its source string. -/
def jsTruthyString (x : Option String) : Option String :=
  match x with
  | none => none
  | some s => if s = "" then none else some s

/-- Truthiness of an optional numeric id (`if (x.customer_id)` …):
missing and `0` are falsy. -/
def jsTruthyId (x : Option Nat) : Option Nat :=
  match x with
  | none => none
  | some n => if n = 0 then none else some n

/-! ## Upstream (Shopify) payloads, as read by the upsert functions. -/

/-- Shopify customer payload fields consumed by `upsertCustomer`. -/
structure ShopifyCustomer where
  id : Nat
  email : Option String
  first_name : Option String
  last_name : Option String
  phone : Option String
  total_spent : Option String
  orders_count : Option Nat
  tags : Option String
  accepts_marketing : Option Bool
deriving DecidableEq, Repr

/-- Shopify order line-item payload fields consumed by `upsertOrder`. -/
structure ShopifyLineItem where
  product_id : Option Nat
  variant_id : Option Nat
  title : Option String
  quantity : Nat
  price : Option String
  total_discount : Option String
deriving DecidableEq, Repr

/-- Shopify order payload fields consumed by `upsertOrder`;
`customer` holds `shopifyOrder.customer?.id`. -/
structure ShopifyOrder where
  id : Nat
  customer : Option Nat
  order_number : Option Nat
  name : Option String
  email : Option String
  total_price : Option String
  subtotal_price : Option String
  total_tax : Option String
  currency : Option String
  financial_status : Option String
  fulfillment_status : Option String
  tags : Option String
  note : Option String
  processed_at : Option String
  cancelled_at : Option String
  line_items : Option (List ShopifyLineItem)
deriving DecidableEq, Repr

/-- Shopify product payload fields consumed by `upsertProduct`; the
`images` and `variants` JSON arrays are kept as raw strings. -/
structure ShopifyProduct where
  id : Nat
  title : Option String
  handle : Option String
  body_html : Option String
  vendor : Option String
  product_type : Option String
  tags : Option String
  status : Option String
  images : Option (List String)
  variants : Option (List String)
deriving DecidableEq, Repr

/-- Shopify cart payload fields consumed by the cart webhook handler and
`detectCartAbandonment`; `updated_at` is the parsed epoch time. -/
structure ShopifyCart where
  id : Nat
  token : Option String
  total_price : Option String
  line_items : Option (List ShopifyLineItem)
  currency : Option String
  email : Option String
  customer_id : Option Nat
  updated_at : Nat
deriving DecidableEq, Repr

/-! ## Local rows (Prisma models). -/

/-- Local `Customer` row. -/
structure CustomerRow where
  localId : Nat
  shopifyId : String
  tenantId : String
  email : Option String
  firstName : Option String
  lastName : Option String
  phone : Option String
  totalSpent : JsNum
  ordersCount : Nat
  tags : List String
  acceptsMarketing : Bool
  createdAt : Nat
  updatedAt : Nat
deriving DecidableEq, Repr

/-- Local `Order` row. -/
structure OrderRow where
  localId : Nat
  shopifyId : String
  tenantId : String
  customerId : Option Nat
  orderNumber : Option String
  email : Option String
  totalPrice : JsNum
  subtotalPrice : JsNum
  totalTax : JsNum
  currency : Option String
  financialStatus : Option String
  fulfillmentStatus : Option String
  tags : List String
  note : Option String
  processedAt : Option String
  cancelledAt : Option String
  createdAt : Nat
  updatedAt : Nat
deriving DecidableEq, Repr

/-- Local `OrderItem` row (the code never reads an item's own id, so item
identity is its content). -/
structure OrderItemRow where
  orderId : Nat
  productId : Option Nat
  variantId : Option String
  title : Option String
  quantity : Nat
  price : JsNum
  totalDiscount : JsNum
deriving DecidableEq, Repr

/-- Local `Product` row. -/
structure ProductRow where
  localId : Nat
  shopifyId : String
  tenantId : String
  title : Option String
  handle : Option String
  description : Option String
  vendor : Option String
  productType : Option String
  tags : List String
  status : Option String
  images : List String
  variants : List String
  createdAt : Nat
  updatedAt : Nat
deriving DecidableEq, Repr

/-- `SyncLog` (Audit Log) row. -/
structure SyncLogRow where
  tenantId : String
  syncType : String
  success : Bool
  recordsProcessed : Nat
  duration : Nat
  error : Option String
  createdAt : Nat
deriving DecidableEq, Repr

/-- Payload stored in a cart/checkout `CustomEvent` (the fields written
by the webhook handlers that later reads depend on). -/
structure EventData where
  cartId : Option Nat
  cartToken : Option String
  totalPrice : JsNum
  itemCount : Nat
  currency : Option String
  email : Option String
  abandonedAt : Option Nat
  timeToAbandon : Option Int
  lineItems : List ShopifyLineItem
deriving DecidableEq, Repr

/-- Local `CustomEvent` row. -/
structure CustomEventRow where
  tenantId : String
  customerId : Option Nat
  eventType : String
  data : EventData
  createdAt : Nat
deriving DecidableEq, Repr

/-- Local `Tenant` row fields consumed by the webhook pipeline. -/
structure TenantRow where
  id : String
  name : String
  shopifyDomain : String
  webhookSecret : Option (List Nat)
deriving DecidableEq, Repr

/-- The local store: one multi-tenant database state.  `nextId` models
Prisma's fresh-primary-key supply.  `syncLogs` and `events` are kept
newest-first (all writes prepend for `syncLogs`; `events` appends, and
its reads never depend on order beyond existence). -/
structure Db where
  nextId : Nat
  customers : List CustomerRow
  orders : List OrderRow
  orderItems : List OrderItemRow
  products : List ProductRow
  events : List CustomEventRow
  syncLogs : List SyncLogRow
deriving DecidableEq, Repr

/-- The empty database. -/
def Db.empty : Db := ⟨0, [], [], [], [], [], []⟩

/-! ## Reconciliation Engine: `upsertCustomer` / `upsertOrder` /
`upsertProduct` (src/services/shopify.ts). -/

/-- Composite natural key `shopifyId_tenantId` on customers. -/
def custKey (sid tid : String) (c : CustomerRow) : Bool :=
  c.shopifyId == sid && c.tenantId == tid

/-- Composite natural key `shopifyId_tenantId` on orders. -/
def ordKey (sid tid : String) (o : OrderRow) : Bool :=
  o.shopifyId == sid && o.tenantId == tid

/-- Composite natural key `shopifyId_tenantId` on products. -/
def prodKey (sid tid : String) (p : ProductRow) : Bool :=
  p.shopifyId == sid && p.tenantId == tid

/-- The `update` branch of `prisma.customer.upsert`: overwrite the payload
fields and `updatedAt`, keep identity and `createdAt`. -/
def updateCustomerRow (sc : ShopifyCustomer) (now : Nat) (c : CustomerRow) : CustomerRow :=
  { c with
    email := sc.email
    firstName := sc.first_name
    lastName := sc.last_name
    phone := sc.phone
    totalSpent := parseFloatOrZero sc.total_spent
    ordersCount := sc.orders_count.getD 0
    tags := splitTags sc.tags
    acceptsMarketing := sc.accepts_marketing.getD false
    updatedAt := now }

/-- The `create` branch of `prisma.customer.upsert`. -/
def createCustomerRow (tid : String) (sc : ShopifyCustomer) (now : Nat) (newId : Nat) : CustomerRow :=
  { localId := newId
    shopifyId := toString sc.id
    tenantId := tid
    email := sc.email
    firstName := sc.first_name
    lastName := sc.last_name
    phone := sc.phone
    totalSpent := parseFloatOrZero sc.total_spent
    ordersCount := sc.orders_count.getD 0
    tags := splitTags sc.tags
    acceptsMarketing := sc.accepts_marketing.getD false
    createdAt := now
    updatedAt := now }

/-- `upsertCustomer` (shopify.ts): `prisma.customer.upsert` keyed by
`(shopifyId, tenantId)`. -/
def upsertCustomer (tid : String) (sc : ShopifyCustomer) (now : Nat) (db : Db) : Db :=
  match db.customers.find? (custKey (toString sc.id) tid) with
  | some _ =>
    { db with customers :=
        db.customers.map fun c =>
          if custKey (toString sc.id) tid c then updateCustomerRow sc now c else c }
  | none =>
    { db with
      nextId := db.nextId + 1
      customers := db.customers ++ [createCustomerRow tid sc now db.nextId] }

/-- `shopifyOrder.order_number?.toString() || shopifyOrder.name`. -/
def orderNumberOf (so : ShopifyOrder) : Option String :=
  match so.order_number with
  | some n => some (toString n)
  | none => so.name

/-- The `update` branch of `prisma.order.upsert`: note that `customerId`
is **not** touched on update (it is set only on create). -/
def updateOrderRow (so : ShopifyOrder) (now : Nat) (o : OrderRow) : OrderRow :=
  { o with
    orderNumber := orderNumberOf so
    email := so.email
    totalPrice := parseFloatField so.total_price
    subtotalPrice := parseFloatOrZero so.subtotal_price
    totalTax := parseFloatOrZero so.total_tax
    currency := so.currency
    financialStatus := so.financial_status
    fulfillmentStatus := so.fulfillment_status
    tags := splitTags so.tags
    note := so.note
    processedAt := jsTruthyString so.processed_at
    cancelledAt := jsTruthyString so.cancelled_at
    updatedAt := now }

/-- The `create` branch of `prisma.order.upsert`; `customerId` is the
local id of the customer resolved by `(external customer id, tenantId)`,
when one exists. -/
def createOrderRow (tid : String) (so : ShopifyOrder) (now : Nat) (newId : Nat)
    (customerLocalId : Option Nat) : OrderRow :=
  { localId := newId
    shopifyId := toString so.id
    tenantId := tid
    customerId := customerLocalId
    orderNumber := orderNumberOf so
    email := so.email
    totalPrice := parseFloatField so.total_price
    subtotalPrice := parseFloatOrZero so.subtotal_price
    totalTax := parseFloatOrZero so.total_tax
    currency := so.currency
    financialStatus := so.financial_status
    fulfillmentStatus := so.fulfillment_status
    tags := splitTags so.tags
    note := so.note
    processedAt := jsTruthyString so.processed_at
    cancelledAt := jsTruthyString so.cancelled_at
    createdAt := now
    updatedAt := now }

/-- `if (shopifyOrder.customer?.id) { customer = prisma.customer.findUnique(...) }`. -/
def resolveOrderCustomer (tid : String) (so : ShopifyOrder) (db : Db) : Option Nat :=
  match jsTruthyId so.customer with
  | none => none
  | some cid => (db.customers.find? (custKey (toString cid) tid)).map (·.localId)

/-- The `prisma.order.upsert` part of `upsertOrder`; returns the database
and the local id of the upserted order row (`order.id` in the source). -/
def upsertOrderRow (tid : String) (so : ShopifyOrder) (now : Nat) (db : Db) : Db × Nat :=
  match db.orders.find? (ordKey (toString so.id) tid) with
  | some o =>
    ({ db with orders :=
        db.orders.map fun r =>
          if ordKey (toString so.id) tid r then updateOrderRow so now r else r },
     o.localId)
  | none =>
    ({ db with
       nextId := db.nextId + 1
       orders := db.orders ++ [createOrderRow tid so now db.nextId (resolveOrderCustomer tid so db)] },
     db.nextId)

/-- One `prisma.orderItem.create` from a Shopify line item: the optional
product link is resolved by `(product_id, tenantId)` (JS truthiness on
`lineItem.product_id`). -/
def mkOrderItem (tid : String) (oid : Nat) (db : Db) (li : ShopifyLineItem) : OrderItemRow :=
  { orderId := oid
    productId :=
      match jsTruthyId li.product_id with
      | none => none
      | some pid => (db.products.find? (prodKey (toString pid) tid)).map (·.localId)
    variantId := li.variant_id.map toString
    title := li.title
    quantity := li.quantity
    price := parseFloatField li.price
    totalDiscount := parseFloatOrZero li.total_discount }

/-- `upsertOrder` (shopify.ts): upsert the order row, then — when
`line_items` is present — delete all existing items of the order and
recreate them from the payload. -/
def upsertOrder (tid : String) (so : ShopifyOrder) (now : Nat) (db : Db) : Db :=
  let (db1, oid) := upsertOrderRow tid so now db
  match so.line_items with
  | none => db1
  | some items =>
    { db1 with orderItems :=
        db1.orderItems.filter (fun it => !(it.orderId == oid))
          ++ items.map (mkOrderItem tid oid db1) }

/-- The `update` branch of `prisma.product.upsert`. -/
def updateProductRow (sp : ShopifyProduct) (now : Nat) (p : ProductRow) : ProductRow :=
  { p with
    title := sp.title
    handle := sp.handle
    description := sp.body_html
    vendor := sp.vendor
    productType := sp.product_type
    tags := splitTags sp.tags
    status := sp.status
    images := sp.images.getD []
    variants := sp.variants.getD []
    updatedAt := now }

/-- The `create` branch of `prisma.product.upsert`. -/
def createProductRow (tid : String) (sp : ShopifyProduct) (now : Nat) (newId : Nat) : ProductRow :=
  { localId := newId
    shopifyId := toString sp.id
    tenantId := tid
    title := sp.title
    handle := sp.handle
    description := sp.body_html
    vendor := sp.vendor
    productType := sp.product_type
    tags := splitTags sp.tags
    status := sp.status
    images := sp.images.getD []
    variants := sp.variants.getD []
    createdAt := now
    updatedAt := now }

/-- `upsertProduct` (shopify.ts). -/
def upsertProduct (tid : String) (sp : ShopifyProduct) (now : Nat) (db : Db) : Db :=
  match db.products.find? (prodKey (toString sp.id) tid) with
  | some _ =>
    { db with products :=
        db.products.map fun p =>
          if prodKey (toString sp.id) tid p then updateProductRow sp now p else p }
  | none =>
    { db with
      nextId := db.nextId + 1
      products := db.products ++ [createProductRow tid sp now db.nextId] }

/-! ## Audit Log operations (shopify.ts + scheduler). -/

/-- Match of a sync-log row against `(tenantId, syncType, success: true)`. -/
def syncLogSuccessKey (tid ty : String) (l : SyncLogRow) : Bool :=
  l.tenantId == tid && l.syncType == ty && l.success

/-- `getLastSyncTime`: `createdAt` of the most recent successful entry for
`(tenantId, syncType)` (the list is newest-first). -/
def getLastSyncTime (tid ty : String) (logs : List SyncLogRow) : Option Nat :=
  (logs.find? (syncLogSuccessKey tid ty)).map (·.createdAt)

/-- `updateLastSyncTime`: append a successful marker entry with
`recordsProcessed: 0, duration: 0`. -/
def updateLastSyncTime (tid ty : String) (now : Nat) (logs : List SyncLogRow) : List SyncLogRow :=
  { tenantId := tid, syncType := ty, success := true,
    recordsProcessed := 0, duration := 0, error := none, createdAt := now } :: logs

/-- `resetSyncTime`: `prisma.syncLog.deleteMany` for `(tenantId, syncType)`. -/
def resetSyncTime (tid ty : String) (logs : List SyncLogRow) : List SyncLogRow :=
  logs.filter fun l => !(l.tenantId == tid && l.syncType == ty)

/-- `logSyncResult` (scheduler): append one summary entry for the run. -/
def logSyncResult (tid ty : String) (success : Bool) (rp dur : Nat)
    (err : Option String) (now : Nat) (logs : List SyncLogRow) : List SyncLogRow :=
  { tenantId := tid, syncType := ty, success := success,
    recordsProcessed := rp, duration := dur, error := err, createdAt := now } :: logs

/-- `cleanupSyncLogs` (scheduler): delete entries older than the cutoff
(30 days before now in the source). -/
def cleanupSyncLogs (cutoff : Nat) (logs : List SyncLogRow) : List SyncLogRow :=
  logs.filter fun l => !(l.createdAt < cutoff)

/-! ## Sync Orchestrator (scheduler module + `ShopifyService.syncOrders`). -/

/-- `retrySync`, unrolled on the number of attempts remaining.  The
oracle `f` gives the outcome of attempt `attempt` (1-based, as in the
source's `for` loop).  Returns the final outcome together with the list
of backoff delays slept between attempts
(`baseDelay * 2 ** (attempt - 1)`). -/
def retrySyncAux {α : Type} (f : Nat → Except String α) (baseDelay : Nat) :
    Nat → Nat → Except String α × List Nat
  | _, 0 => (Except.error "no attempts", [])
  | attempt, remaining + 1 =>
    match f attempt with
    | Except.ok v => (Except.ok v, [])
    | Except.error e =>
      if remaining = 0 then (Except.error e, [])
      else
        let delay := baseDelay * 2 ^ (attempt - 1)
        let (r, ds) := retrySyncAux f baseDelay (attempt + 1) remaining
        (r, delay :: ds)

/-- `retrySync(syncFn, maxRetries, baseDelay = 1000)`. -/
def retrySync {α : Type} (f : Nat → Except String α) (maxRetries : Nat)
    (baseDelay : Nat := 1000) : Except String α × List Nat :=
  retrySyncAux f baseDelay 1 maxRetries

/-- The shared shape of the three pagination loops in
`syncOrders` / `syncCustomers` / `syncProducts`: fetch pages until an
error (caught: `hasMorePages = false`), an empty page, a short page, or
the 5000-record safety cap; a full page advances the cursor to the last
record's identifier.  `f` takes the 1-based page number (`pageCount`) and
the current `page_info` cursor; `idOf` projects a record's id.  Returns
the accumulated records and the number of fetch calls made. -/
def fetchPagesLoop {α : Type} (idOf : α → Nat)
    (f : Nat → Option Nat → Except String (List α)) (p : Nat)
    (acc : List α) (pageInfo : Option Nat) (pageCount : Nat) :
    List α × Nat :=
  if h : acc.length < 5000 then
    match f (pageCount + 1) pageInfo with
    | Except.error _ => (acc, pageCount + 1)
    | Except.ok page =>
      if page.length = 0 then (acc, pageCount + 1)
      else if page.length < p then (acc ++ page, pageCount + 1)
      else
        fetchPagesLoop idOf f p (acc ++ page)
          (some ((page.getLast?.map idOf).getD 0)) (pageCount + 1)
  else (acc, pageCount)
termination_by 5000 - acc.length
decreasing_by
  simp only [List.length_append]
  omega

/-- `ShopifyService.syncOrders`: compute the incremental window (read but
consumed by the fetch oracle), paginate, upsert every fetched order (a
per-record failure is caught and skipped; the model's upsert is total),
and append the `updateLastSyncTime` marker entry.  Returns the database,
the processed-record count (the function's return value), and the number
of fetch calls made. -/
def syncOrders (f : Nat → Option Nat → Except String (List ShopifyOrder))
    (tid : String) (limit : Nat) (now : Nat) (db : Db) : Db × Nat × Nat :=
  let p := min limit 250
  let (fetched, calls) := fetchPagesLoop (·.id) f p [] none 0
  let db1 := fetched.foldl (fun d o => upsertOrder tid o now d) db
  let db2 := { db1 with syncLogs := updateLastSyncTime tid "orders" now db1.syncLogs }
  (db2, fetched.length, calls)

/-- `ShopifyService.forceSyncOrders`: `resetSyncTime('orders')` —
deleting every sync-log entry of the tenant for that type — then
`syncOrders`. -/
def forceSyncOrders (f : Nat → Option Nat → Except String (List ShopifyOrder))
    (tid : String) (limit : Nat) (now : Nat) (db : Db) : Db × Nat × Nat :=
  let db0 := { db with syncLogs := resetSyncTime tid "orders" db.syncLogs }
  syncOrders f tid limit now db0

/-- `shouldSync` (scheduler): `true` iff some requested type has no
successful entry, or its most recent successful entry is older than the
10-minute guard window. -/
def shouldSync (tid : String) (types : List String) (now : Nat)
    (logs : List SyncLogRow) : Bool :=
  types.any fun ty =>
    match logs.find? (syncLogSuccessKey tid ty) with
    | none => true
    | some l => decide (600000 < now - l.createdAt)

/-- A fresh successful entry for `(tenantId, syncType)` inside the
10-minute guard window (the complement of one `shouldSync` disjunct). -/
def hasFreshSuccess (tid ty : String) (now : Nat) (logs : List SyncLogRow) : Bool :=
  match logs.find? (syncLogSuccessKey tid ty) with
  | none => false
  | some l => decide (now - l.createdAt ≤ 600000)

/-- The guard at the head of `syncTenant`: unless `force`, the whole
tenant sync is skipped (no type runs) when `shouldSync` is false;
otherwise every requested type runs. -/
def syncTenantTypesRun (force : Bool) (tid : String) (types : List String)
    (now : Nat) (logs : List SyncLogRow) : List String :=
  if !force && !shouldSync tid types now logs then [] else types

/-- `SyncOptions` of the scheduler module. -/
structure SyncOptions where
  force : Bool
  types : List String
deriving DecidableEq, Repr

/-- `syncTenantById` forwards `{ ...options, force: true }` to
`syncTenant`: the manual trigger always sets the force flag. -/
def syncTenantByIdOptions (o : SyncOptions) : SyncOptions :=
  { o with force := true }

/-- `SyncResult` of the scheduler module. -/
structure SyncResult where
  success : Bool
  tenantId : String
  type : String
  recordsProcessed : Nat
  duration : Nat
  error : Option String
deriving DecidableEq, Repr

/-- The per-type body of `syncTenant`: run the type's sync through
`retrySync(·, 3)`; on success push a success result and log it, on
exhausted failure push a failed result and log it with the final error.
`attempts` gives the outcome of each retry attempt; `dur` is the measured
duration. -/
def syncTenantType (attempts : Nat → Except String Nat) (tid ty : String)
    (now dur : Nat) (logs : List SyncLogRow) : SyncResult × List SyncLogRow :=
  match (retrySync attempts 3).1 with
  | Except.ok n =>
    ({ success := true, tenantId := tid, type := ty, recordsProcessed := n,
       duration := dur, error := none },
     logSyncResult tid ty true n dur none now logs)
  | Except.error e =>
    ({ success := false, tenantId := tid, type := ty, recordsProcessed := 0,
       duration := dur, error := some e },
     logSyncResult tid ty false 0 dur (some e) now logs)

/-- The successful per-type `orders` path of `syncTenant` composed with
the service: `syncOrders` itself appends its marker entry, then
`logSyncResult` appends the summary entry with the processed count. -/
def syncTenantOrders (f : Nat → Option Nat → Except String (List ShopifyOrder))
    (tid : String) (now dur : Nat) (db : Db) : SyncResult × Db :=
  let (db1, n, _) := syncOrders f tid 100 now db
  ({ success := true, tenantId := tid, type := "orders", recordsProcessed := n,
     duration := dur, error := none },
   { db1 with syncLogs := logSyncResult tid "orders" true n dur none now db1.syncLogs })

/-! ## Webhook Ingestion Pipeline (route.ts). -/

/-- The XOR/OR accumulation underlying `crypto.timingSafeEqual`. -/
def xorFold (a b : List Nat) : Nat :=
  (List.zipWith Nat.xor a b).foldl Nat.lor 0

/-- `crypto.timingSafeEqual` on byte lists: a length mismatch throws in
Node (the surrounding `try` turns it into `false`); equal lengths compare
all bytes without early exit. -/
def timingSafeEq (a b : List Nat) : Bool :=
  a.length == b.length && xorFold a b == 0

/-- `verifyWebhook`: compare the decoded signature header with the
HMAC-SHA256 of the raw body under the tenant secret, using the
constant-time comparison.  Bodies, secrets, signatures and digests are
byte lists; `mac` is the HMAC-SHA256 primitive (an external library
call), taking the secret and the message. -/
def verifyWebhook (mac : List Nat → List Nat → List Nat)
    (body signature secret : List Nat) : Bool :=
  timingSafeEq signature (mac secret body)

/-- `topic.replace('/', '_')`: JavaScript `String.replace` with a string
pattern replaces only the first occurrence. -/
def replaceFirstSlash : List Char → List Char
  | [] => []
  | c :: cs => if c = '/' then '_' :: cs else c :: replaceFirstSlash cs

/-- The `syncType` tag written by `logWebhookRequest`. -/
def webhookSyncType (topic : String) : String :=
  "webhook_" ++ String.mk (replaceFirstSlash topic.data)

/-- `logWebhookRequest`: append one sync-log entry for the webhook
delivery (`recordsProcessed` is 1 on success, 0 on failure). -/
def logWebhookRequest (tid topic : String) (success : Bool)
    (processingTime : Nat) (err : Option String) (now : Nat)
    (logs : List SyncLogRow) : List SyncLogRow :=
  { tenantId := tid, syncType := webhookSyncType topic, success := success,
    recordsProcessed := if success then 1 else 0, duration := processingTime,
    error := err, createdAt := now } :: logs

/-- A webhook request at the boundary: the three required headers (a
missing header is `none`; `headers.get` can also yield an empty string,
which is falsy in the validation) and the raw body as bytes. -/
structure WebhookReq where
  signature : Option (List Nat)
  topic : Option String
  shopDomain : Option String
  body : List Nat
deriving DecidableEq, Repr

/-- Header-presence validation: `!signature || !topic || !shopDomain`
(an empty topic or domain string is falsy). -/
def headersValid (req : WebhookReq) : Option (List Nat × String × String) :=
  match req.signature, req.topic, req.shopDomain with
  | some sig, some topic, some shop =>
    if topic = "" || shop = "" then none else some (sig, topic, shop)
  | _, _, _ => none

/-- The `POST` handler of route.ts, from header validation to dispatch.
External effects are oracles: `mac` is HMAC-SHA256, `rateOk` the outcome
of `checkRateLimit(shopDomain)`, `tenants` the tenant table for
`findUnique({shopifyDomain})`, `parseOk` whether `JSON.parse(body)`
succeeds, and `handler` the outcome of the topic dispatch (an
`Except.error` is a thrown handler exception).  Returns the HTTP status
and the sync-log table. -/
def webhookPOST (mac : List Nat → List Nat → List Nat) (rateOk : Bool)
    (tenants : List TenantRow) (parseOk : Bool)
    (handler : Except String Unit) (req : WebhookReq)
    (now dur : Nat) (logs : List SyncLogRow) : Nat × List SyncLogRow :=
  match headersValid req with
  | none => (400, logs)
  | some (sig, topic, shop) =>
    if !rateOk then (429, logs)
    else if req.body.length = 0 then (400, logs)
    else
      match tenants.find? (·.shopifyDomain == shop) with
      | none => (404, logs)
      | some tenant =>
        let verified :=
          match tenant.webhookSecret with
          | some secret => verifyWebhook mac req.body sig secret
          | none => true
        if !verified then
          (401, logWebhookRequest tenant.id topic false dur (some "Invalid signature") now logs)
        else if !parseOk then
          (400, logWebhookRequest tenant.id topic false dur (some "Invalid JSON payload") now logs)
        else
          match handler with
          | Except.ok _ =>
            (200, logWebhookRequest tenant.id topic true dur none now logs)
          | Except.error e =>
            (200, logWebhookRequest tenant.id topic false dur (some e) now logs)

/-! ## Cart abandonment detection (route.ts). -/

/-- A `cart_abandoned` event for this cart id (the
`eventData.path ['cartId'] equals cart.id` filter). -/
def cartAbandonedKey (tid : String) (cid : Nat) (ev : CustomEventRow) : Bool :=
  ev.tenantId == tid && ev.eventType == "cart_abandoned" && ev.data.cartId == some cid

/-- The `cart_abandoned` event payload created by
`detectCartAbandonment`. -/
def mkAbandonEvent (cart : ShopifyCart) (tid : String)
    (customerId : Option Nat) (items : List ShopifyLineItem) (now : Nat) :
    CustomEventRow :=
  { tenantId := tid
    customerId := customerId
    eventType := "cart_abandoned"
    data :=
      { cartId := some cart.id
        cartToken := cart.token
        totalPrice := parseFloatOrZero cart.total_price
        itemCount := items.length
        currency := cart.currency
        email := cart.email
        abandonedAt := some now
        timeToAbandon := some ((now : Int) - (cart.updated_at : Int))
        lineItems := items }
    createdAt := now }

/-- `detectCartAbandonment`: skip when the cart has no line items, when a
`cart_abandoned` event for this cart id already exists, when an order for
this tenant/customer was created at or after the cart's last update, or
when a `checkout_started` event for this customer exists at or after that
time; otherwise create the `cart_abandoned` event. -/
def detectCartAbandonment (cart : ShopifyCart) (tid : String)
    (customerId : Option Nat) (now : Nat) (db : Db) : Db :=
  match cart.line_items with
  | none => db
  | some items =>
    if items.length = 0 then db
    else if (db.events.find? (cartAbandonedKey tid cart.id)).isSome then db
    else if (db.orders.find? fun o =>
        o.tenantId == tid && o.customerId == customerId
          && decide (cart.updated_at ≤ o.createdAt)).isSome then db
    else if (db.events.find? fun ev =>
        ev.tenantId == tid && ev.customerId == customerId
          && ev.eventType == "checkout_started"
          && decide (cart.updated_at ≤ ev.createdAt)).isSome then db
    else { db with events := db.events ++ [mkAbandonEvent cart tid customerId items now] }

/-! ## Generic lemmas about the find?/map/append upsert pattern. -/

/-- `find?` only depends on the predicate's values. -/
theorem find?_congrB {α : Type} {p q : α → Bool} (h : ∀ a, p a = q a) :
    ∀ l : List α, l.find? p = l.find? q := by
  intro l
  induction l with
  | nil => rfl
  | cons a t ih =>
    cases hq : q a with
    | true => simp [List.find?_cons, h a, hq]
    | false => simp [List.find?_cons, h a, hq, ih]

/-- One upsert map step keeps the key predicate, provided the update
does. -/
theorem key_upsertStep {α : Type} {key : α → Bool} {upd : α → α}
    (hk : ∀ a, key a = true → key (upd a) = true) (a : α) :
    key (if key a then upd a else a) = key a := by
  cases hka : key a with
  | true => simpa [hka] using hk a hka
  | false => simp [hka]

/-- `find?` after the update-branch map returns the updated found row. -/
theorem find?_map_upsert {α : Type} {key : α → Bool} {upd : α → α}
    (hk : ∀ a, key a = true → key (upd a) = true) (l : List α) :
    (l.map fun a => if key a then upd a else a).find? key
      = (l.find? key).map fun a => if key a then upd a else a := by
  rw [List.find?_map]
  congr 1
  exact find?_congrB (fun a => key_upsertStep hk a) l

/-- The update-branch map is idempotent when the row update is. -/
theorem map_upsert_idem {α : Type} {key : α → Bool} {upd : α → α}
    (hk : ∀ a, key a = true → key (upd a) = true)
    (hi : ∀ a, key a = true → upd (upd a) = upd a) (l : List α) :
    ((l.map fun a => if key a then upd a else a).map
        fun a => if key a then upd a else a)
      = l.map fun a => if key a then upd a else a := by
  rw [List.map_map]
  apply List.map_congr_left
  intro a _
  cases hka : key a with
  | true => simp [Function.comp, hka, hk a hka, hi a hka]
  | false => simp [Function.comp, hka]

/-- When no row matches, the update-branch map is the identity. -/
theorem map_upsert_of_none {α : Type} {key : α → Bool} {upd : α → α}
    {l : List α} (h : l.find? key = none) :
    (l.map fun a => if key a then upd a else a) = l := by
  rw [List.find?_eq_none] at h
  have h2 : (l.map fun a => if key a then upd a else a) = l.map id := by
    apply List.map_congr_left
    intro a ha
    rw [if_neg (h a ha)]
    rfl
  rw [h2, List.map_id]

/-- The update-branch map does not change how many rows match the key. -/
theorem countP_map_upsert {α : Type} {key : α → Bool} {upd : α → α}
    (hk : ∀ a, key a = true → key (upd a) = true) (l : List α) :
    (l.map fun a => if key a then upd a else a).countP key = l.countP key := by
  rw [List.countP_map]
  apply List.countP_congr
  intro a _
  simp [Function.comp, key_upsertStep hk a]

/-- Any row the post-upsert `find?` returns came from the update branch
(or is the created row), hence satisfies any property shared by all
updated rows and by the created row. -/
theorem find?_map_upsert_prop {α : Type} {key : α → Bool} {upd : α → α}
    {P : α → Prop} (hk : ∀ a, key a = true → key (upd a) = true)
    (hP : ∀ a, P (upd a)) {l : List α} {r : α}
    (h : (l.map fun a => if key a then upd a else a).find? key = some r) :
    P r := by
  have hkr := List.find?_some h
  have hmem := List.mem_of_find?_eq_some h
  rcases List.mem_map.mp hmem with ⟨a, _, rfl⟩
  cases hka : key a with
  | true => simpa [hka] using hP a
  | false => simp [hka] at hkr

/-! ## Idempotence and uniqueness of the customer upsert. -/

/-- The customer update branch does not touch the natural key. -/
theorem custKey_update (sid tid : String) (sc : ShopifyCustomer) (now : Nat)
    (c : CustomerRow) : custKey sid tid (updateCustomerRow sc now c) = custKey sid tid c :=
  rfl

/-- The customer update branch is idempotent on rows. -/
theorem updateCustomerRow_idem (sc : ShopifyCustomer) (now : Nat) (c : CustomerRow) :
    updateCustomerRow sc now (updateCustomerRow sc now c) = updateCustomerRow sc now c :=
  rfl

/-- The created customer row matches the natural key. -/
theorem custKey_create (tid : String) (sc : ShopifyCustomer) (now : Nat) (i : Nat) :
    custKey (toString sc.id) tid (createCustomerRow tid sc now i) = true := by
  simp [custKey, createCustomerRow]

/-- Updating the created customer row with the same payload and clock is
the identity. -/
theorem updateCustomerRow_create (tid : String) (sc : ShopifyCustomer) (now : Nat) (i : Nat) :
    updateCustomerRow sc now (createCustomerRow tid sc now i) = createCustomerRow tid sc now i :=
  rfl

/-- A second `upsertCustomer` with the identical payload is a no-op. -/
theorem upsertCustomer_idem (tid : String) (sc : ShopifyCustomer) (now : Nat) (db : Db) :
    upsertCustomer tid sc now (upsertCustomer tid sc now db) = upsertCustomer tid sc now db := by
  have hk : ∀ c, custKey (toString sc.id) tid c = true →
      custKey (toString sc.id) tid (updateCustomerRow sc now c) = true := by
    intro c hc; rw [custKey_update]; exact hc
  cases h : db.customers.find? (custKey (toString sc.id) tid) with
  | some c0 =>
    have h1 : upsertCustomer tid sc now db =
        { db with customers :=
            db.customers.map fun c =>
              if custKey (toString sc.id) tid c then updateCustomerRow sc now c else c } := by
      unfold upsertCustomer; rw [h]
    have h2 : ((db.customers.map fun c =>
        if custKey (toString sc.id) tid c then updateCustomerRow sc now c else c).find?
          (custKey (toString sc.id) tid)) =
        some (if custKey (toString sc.id) tid c0 then updateCustomerRow sc now c0 else c0) := by
      rw [find?_map_upsert hk, h]; rfl
    rw [h1]
    unfold upsertCustomer
    simp only [h2]
    congr 1
    exact map_upsert_idem hk (fun a _ => updateCustomerRow_idem sc now a) db.customers
  | none =>
    have h1 : upsertCustomer tid sc now db =
        { db with
          nextId := db.nextId + 1
          customers := db.customers ++ [createCustomerRow tid sc now db.nextId] } := by
      unfold upsertCustomer; rw [h]
    have h2 : ((db.customers ++ [createCustomerRow tid sc now db.nextId]).find?
        (custKey (toString sc.id) tid))
        = some (createCustomerRow tid sc now db.nextId) := by
      rw [List.find?_append, h]
      simp [List.find?, custKey_create]
    rw [h1]
    unfold upsertCustomer
    simp only [h2]
    congr 1
    rw [List.map_append, map_upsert_of_none h]
    simp [custKey_create, updateCustomerRow_create]

/-- After `upsertCustomer`, exactly one row matches the key (given the
unique-per-tenant invariant on the input state). -/
theorem upsertCustomer_count (tid : String) (sc : ShopifyCustomer) (now : Nat) (db : Db)
    (hc : db.customers.countP (custKey (toString sc.id) tid) ≤ 1) :
    (upsertCustomer tid sc now db).customers.countP (custKey (toString sc.id) tid) = 1 := by
  have hk : ∀ c, custKey (toString sc.id) tid c = true →
      custKey (toString sc.id) tid (updateCustomerRow sc now c) = true := by
    intro c h'; rw [custKey_update]; exact h'
  cases h : db.customers.find? (custKey (toString sc.id) tid) with
  | some c0 =>
    have hpos : 0 < db.customers.countP (custKey (toString sc.id) tid) :=
      List.countP_pos_iff.mpr ⟨c0, List.mem_of_find?_eq_some h, List.find?_some h⟩
    unfold upsertCustomer
    rw [h]
    simp only []
    rw [countP_map_upsert hk]
    omega
  | none =>
    have hz : db.customers.countP (custKey (toString sc.id) tid) = 0 :=
      List.countP_eq_zero.mpr (List.find?_eq_none.mp h)
    unfold upsertCustomer
    rw [h]
    simp only [List.countP_append, hz, custKey_create]
    simp [List.countP, List.countP.go, custKey_create]

/-- The mirrored payload fields of a customer row. -/
def customerMirror (c : CustomerRow) :
    Option String × Option String × Option String × Option String ×
      JsNum × Nat × List String × Bool :=
  (c.email, c.firstName, c.lastName, c.phone, c.totalSpent, c.ordersCount,
   c.tags, c.acceptsMarketing)

/-- The customer payload fields as mapped by the upsert. -/
def customerMirrorOf (sc : ShopifyCustomer) :
    Option String × Option String × Option String × Option String ×
      JsNum × Nat × List String × Bool :=
  (sc.email, sc.first_name, sc.last_name, sc.phone,
   parseFloatOrZero sc.total_spent, sc.orders_count.getD 0,
   splitTags sc.tags, sc.accepts_marketing.getD false)

/-- The row found after `upsertCustomer` carries the payload's fields. -/
theorem upsertCustomer_mirror (tid : String) (sc : ShopifyCustomer) (now : Nat) (db : Db)
    (r : CustomerRow)
    (h : (upsertCustomer tid sc now db).customers.find? (custKey (toString sc.id) tid) = some r) :
    customerMirror r = customerMirrorOf sc := by
  have hk : ∀ c, custKey (toString sc.id) tid c = true →
      custKey (toString sc.id) tid (updateCustomerRow sc now c) = true := by
    intro c h'; rw [custKey_update]; exact h'
  cases hf : db.customers.find? (custKey (toString sc.id) tid) with
  | some c0 =>
    unfold upsertCustomer at h
    rw [hf] at h
    simp only [] at h
    exact find?_map_upsert_prop (P := fun r => customerMirror r = customerMirrorOf sc)
      hk (fun a => rfl) h
  | none =>
    unfold upsertCustomer at h
    rw [hf] at h
    simp only [] at h
    rw [List.find?_append, hf] at h
    simp [List.find?, custKey_create] at h
    rw [← h]
    rfl

/-! ## Idempotence and uniqueness of the product upsert. -/

/-- The product update branch does not touch the natural key. -/
theorem prodKey_update (sid tid : String) (sp : ShopifyProduct) (now : Nat)
    (p : ProductRow) : prodKey sid tid (updateProductRow sp now p) = prodKey sid tid p :=
  rfl

/-- The product update branch is idempotent on rows. -/
theorem updateProductRow_idem (sp : ShopifyProduct) (now : Nat) (p : ProductRow) :
    updateProductRow sp now (updateProductRow sp now p) = updateProductRow sp now p :=
  rfl

/-- The created product row matches the natural key. -/
theorem prodKey_create (tid : String) (sp : ShopifyProduct) (now : Nat) (i : Nat) :
    prodKey (toString sp.id) tid (createProductRow tid sp now i) = true := by
  simp [prodKey, createProductRow]

/-- Updating the created product row with the same payload and clock is
the identity. -/
theorem updateProductRow_create (tid : String) (sp : ShopifyProduct) (now : Nat) (i : Nat) :
    updateProductRow sp now (createProductRow tid sp now i) = createProductRow tid sp now i :=
  rfl

/-- A second `upsertProduct` with the identical payload is a no-op. -/
theorem upsertProduct_idem (tid : String) (sp : ShopifyProduct) (now : Nat) (db : Db) :
    upsertProduct tid sp now (upsertProduct tid sp now db) = upsertProduct tid sp now db := by
  have hk : ∀ p, prodKey (toString sp.id) tid p = true →
      prodKey (toString sp.id) tid (updateProductRow sp now p) = true := by
    intro p hp; rw [prodKey_update]; exact hp
  cases h : db.products.find? (prodKey (toString sp.id) tid) with
  | some p0 =>
    have h1 : upsertProduct tid sp now db =
        { db with products :=
            db.products.map fun p =>
              if prodKey (toString sp.id) tid p then updateProductRow sp now p else p } := by
      unfold upsertProduct; rw [h]
    have h2 : ((db.products.map fun p =>
        if prodKey (toString sp.id) tid p then updateProductRow sp now p else p).find?
          (prodKey (toString sp.id) tid)) =
        some (if prodKey (toString sp.id) tid p0 then updateProductRow sp now p0 else p0) := by
      rw [find?_map_upsert hk, h]; rfl
    rw [h1]
    unfold upsertProduct
    simp only [h2]
    congr 1
    exact map_upsert_idem hk (fun a _ => updateProductRow_idem sp now a) db.products
  | none =>
    have h1 : upsertProduct tid sp now db =
        { db with
          nextId := db.nextId + 1
          products := db.products ++ [createProductRow tid sp now db.nextId] } := by
      unfold upsertProduct; rw [h]
    have h2 : ((db.products ++ [createProductRow tid sp now db.nextId]).find?
        (prodKey (toString sp.id) tid))
        = some (createProductRow tid sp now db.nextId) := by
      rw [List.find?_append, h]
      simp [List.find?, prodKey_create]
    rw [h1]
    unfold upsertProduct
    simp only [h2]
    congr 1
    rw [List.map_append, map_upsert_of_none h]
    simp [prodKey_create, updateProductRow_create]

/-- After `upsertProduct`, exactly one row matches the key (given the
unique-per-tenant invariant on the input state). -/
theorem upsertProduct_count (tid : String) (sp : ShopifyProduct) (now : Nat) (db : Db)
    (hp : db.products.countP (prodKey (toString sp.id) tid) ≤ 1) :
    (upsertProduct tid sp now db).products.countP (prodKey (toString sp.id) tid) = 1 := by
  have hk : ∀ p, prodKey (toString sp.id) tid p = true →
      prodKey (toString sp.id) tid (updateProductRow sp now p) = true := by
    intro p h'; rw [prodKey_update]; exact h'
  cases h : db.products.find? (prodKey (toString sp.id) tid) with
  | some p0 =>
    have hpos : 0 < db.products.countP (prodKey (toString sp.id) tid) :=
      List.countP_pos_iff.mpr ⟨p0, List.mem_of_find?_eq_some h, List.find?_some h⟩
    unfold upsertProduct
    rw [h]
    simp only []
    rw [countP_map_upsert hk]
    omega
  | none =>
    have hz : db.products.countP (prodKey (toString sp.id) tid) = 0 :=
      List.countP_eq_zero.mpr (List.find?_eq_none.mp h)
    unfold upsertProduct
    rw [h]
    simp only [List.countP_append, hz, prodKey_create]
    simp [List.countP, List.countP.go, prodKey_create]

/-- The mirrored payload fields of a product row. -/
def productMirror (p : ProductRow) :
    Option String × Option String × Option String × Option String ×
      Option String × List String × Option String × List String × List String :=
  (p.title, p.handle, p.description, p.vendor, p.productType, p.tags,
   p.status, p.images, p.variants)

/-- The product payload fields as mapped by the upsert. -/
def productMirrorOf (sp : ShopifyProduct) :
    Option String × Option String × Option String × Option String ×
      Option String × List String × Option String × List String × List String :=
  (sp.title, sp.handle, sp.body_html, sp.vendor, sp.product_type,
   splitTags sp.tags, sp.status, sp.images.getD [], sp.variants.getD [])

/-- The row found after `upsertProduct` carries the payload's fields. -/
theorem upsertProduct_mirror (tid : String) (sp : ShopifyProduct) (now : Nat) (db : Db)
    (r : ProductRow)
    (h : (upsertProduct tid sp now db).products.find? (prodKey (toString sp.id) tid) = some r) :
    productMirror r = productMirrorOf sp := by
  have hk : ∀ p, prodKey (toString sp.id) tid p = true →
      prodKey (toString sp.id) tid (updateProductRow sp now p) = true := by
    intro p h'; rw [prodKey_update]; exact h'
  cases hf : db.products.find? (prodKey (toString sp.id) tid) with
  | some p0 =>
    unfold upsertProduct at h
    rw [hf] at h
    simp only [] at h
    exact find?_map_upsert_prop (P := fun r => productMirror r = productMirrorOf sp)
      hk (fun a => rfl) h
  | none =>
    unfold upsertProduct at h
    rw [hf] at h
    simp only [] at h
    rw [List.find?_append, hf] at h
    simp [List.find?, prodKey_create] at h
    rw [← h]
    rfl

/-! ## Idempotence and uniqueness of the order upsert. -/

/-- The order update branch does not touch the natural key. -/
theorem ordKey_update (sid tid : String) (so : ShopifyOrder) (now : Nat)
    (o : OrderRow) : ordKey sid tid (updateOrderRow so now o) = ordKey sid tid o :=
  rfl

/-- The order update branch is idempotent on rows. -/
theorem updateOrderRow_idem (so : ShopifyOrder) (now : Nat) (o : OrderRow) :
    updateOrderRow so now (updateOrderRow so now o) = updateOrderRow so now o :=
  rfl

/-- The created order row matches the natural key. -/
theorem ordKey_create (tid : String) (so : ShopifyOrder) (now : Nat) (i : Nat)
    (cid : Option Nat) :
    ordKey (toString so.id) tid (createOrderRow tid so now i cid) = true := by
  simp [ordKey, createOrderRow]

/-- Updating the created order row with the same payload and clock is the
identity (`customerId` is only written on create). -/
theorem updateOrderRow_create (tid : String) (so : ShopifyOrder) (now : Nat) (i : Nat)
    (cid : Option Nat) :
    updateOrderRow so now (createOrderRow tid so now i cid) = createOrderRow tid so now i cid :=
  rfl

/-- The key-preservation fact for the order update branch. -/
theorem ordKey_update_of (tid : String) (so : ShopifyOrder) (now : Nat) :
    ∀ o, ordKey (toString so.id) tid o = true →
      ordKey (toString so.id) tid (updateOrderRow so now o) = true := by
  intro o h
  rw [ordKey_update]
  exact h

/-- `upsertOrderRow` does not touch the products table. -/
theorem upsertOrderRow_products (tid : String) (so : ShopifyOrder) (now : Nat) (db : Db) :
    (upsertOrderRow tid so now db).1.products = db.products := by
  unfold upsertOrderRow
  split <;> rfl

/-- `upsertOrderRow` does not touch the order-items table. -/
theorem upsertOrderRow_orderItems (tid : String) (so : ShopifyOrder) (now : Nat) (db : Db) :
    (upsertOrderRow tid so now db).1.orderItems = db.orderItems := by
  unfold upsertOrderRow
  split <;> rfl

/-- `upsertOrderRow` does not touch the sync-log table. -/
theorem upsertOrderRow_syncLogs (tid : String) (so : ShopifyOrder) (now : Nat) (db : Db) :
    (upsertOrderRow tid so now db).1.syncLogs = db.syncLogs := by
  unfold upsertOrderRow
  split <;> rfl

/-- After `upsertOrderRow`, the row found under the key is the updated or
created row: it exists, its `localId` is the returned order id, and it
mirrors the payload. -/
theorem upsertOrderRow_find (tid : String) (so : ShopifyOrder) (now : Nat) (db : Db) :
    ∃ r, (upsertOrderRow tid so now db).1.orders.find? (ordKey (toString so.id) tid) = some r
      ∧ r.localId = (upsertOrderRow tid so now db).2 := by
  cases h : db.orders.find? (ordKey (toString so.id) tid) with
  | some o0 =>
    have h1 : upsertOrderRow tid so now db =
        ({ db with orders := db.orders.map fun r =>
            if ordKey (toString so.id) tid r then updateOrderRow so now r else r },
         o0.localId) := by
      unfold upsertOrderRow; rw [h]
    have h2 : ((db.orders.map fun r =>
        if ordKey (toString so.id) tid r then updateOrderRow so now r else r).find?
          (ordKey (toString so.id) tid)) =
        some (if ordKey (toString so.id) tid o0 then updateOrderRow so now o0 else o0) := by
      rw [find?_map_upsert (ordKey_update_of tid so now), h]; rfl
    have hko : ordKey (toString so.id) tid o0 = true := List.find?_some h
    refine ⟨updateOrderRow so now o0, ?_, ?_⟩
    · rw [h1]; rw [h2, hko]; simp
    · rw [h1]
      rfl
  | none =>
    have h1 : upsertOrderRow tid so now db =
        ({ db with
           nextId := db.nextId + 1
           orders := db.orders ++
             [createOrderRow tid so now db.nextId (resolveOrderCustomer tid so db)] },
         db.nextId) := by
      unfold upsertOrderRow; rw [h]
    refine ⟨createOrderRow tid so now db.nextId (resolveOrderCustomer tid so db), ?_, ?_⟩
    · rw [h1]
      simp only []
      rw [List.find?_append, h]
      simp [List.find?, ordKey_create]
    · rw [h1]
      rfl

/-- Any row found under the key after `upsertOrderRow` has the returned
order id as its `localId` and mirrors the payload (elementwise version of
`upsertOrderRow_find`, using that `find?` is a function). -/
theorem upsertOrderRow_find_localId (tid : String) (so : ShopifyOrder) (now : Nat) (db : Db)
    (r : OrderRow)
    (h : (upsertOrderRow tid so now db).1.orders.find? (ordKey (toString so.id) tid) = some r) :
    r.localId = (upsertOrderRow tid so now db).2 := by
  obtain ⟨r', hr', hl⟩ := upsertOrderRow_find tid so now db
  rw [h] at hr'
  cases hr'
  exact hl

/-- A second `upsertOrderRow` with the identical payload is a no-op on
any state whose orders table agrees with the result, and returns the same
order id. -/
theorem upsertOrderRow_stable (tid : String) (so : ShopifyOrder) (now : Nat) (db : Db)
    (dbX : Db) (hX : dbX.orders = (upsertOrderRow tid so now db).1.orders) :
    upsertOrderRow tid so now dbX = (dbX, (upsertOrderRow tid so now db).2) := by
  have hk := ordKey_update_of tid so now
  cases h : db.orders.find? (ordKey (toString so.id) tid) with
  | some o0 =>
    have h1 : upsertOrderRow tid so now db =
        ({ db with orders := db.orders.map fun r =>
            if ordKey (toString so.id) tid r then updateOrderRow so now r else r },
         o0.localId) := by
      unfold upsertOrderRow; rw [h]
    have hko : ordKey (toString so.id) tid o0 = true := List.find?_some h
    have h2 : dbX.orders.find? (ordKey (toString so.id) tid)
        = some (updateOrderRow so now o0) := by
      rw [hX, h1]
      simp only []
      rw [find?_map_upsert hk, h]
      simp [hko]
    have h3 : dbX.orders.map (fun r =>
        if ordKey (toString so.id) tid r then updateOrderRow so now r else r) = dbX.orders := by
      rw [hX, h1]
      simp only []
      exact map_upsert_idem hk (fun a _ => updateOrderRow_idem so now a) db.orders
    unfold upsertOrderRow
    rw [h2]
    simp only [h3]
    rw [h]
    rfl
  | none =>
    have h1 : upsertOrderRow tid so now db =
        ({ db with
           nextId := db.nextId + 1
           orders := db.orders ++
             [createOrderRow tid so now db.nextId (resolveOrderCustomer tid so db)] },
         db.nextId) := by
      unfold upsertOrderRow; rw [h]
    have h2 : dbX.orders.find? (ordKey (toString so.id) tid)
        = some (createOrderRow tid so now db.nextId (resolveOrderCustomer tid so db)) := by
      rw [hX, h1]
      simp only []
      rw [List.find?_append, h]
      simp [List.find?, ordKey_create]
    have h3 : dbX.orders.map (fun r =>
        if ordKey (toString so.id) tid r then updateOrderRow so now r else r) = dbX.orders := by
      rw [hX, h1]
      simp only []
      rw [List.map_append, map_upsert_of_none h]
      simp [ordKey_create, updateOrderRow_create]
    unfold upsertOrderRow
    rw [h2]
    simp only [h3]
    rw [h]
    rfl

/-- Unfolding of `upsertOrder` through the pair destructuring. -/
theorem upsertOrder_eq (tid : String) (so : ShopifyOrder) (now : Nat) (db : Db) :
    upsertOrder tid so now db =
      match so.line_items with
      | none => (upsertOrderRow tid so now db).1
      | some items =>
        { (upsertOrderRow tid so now db).1 with orderItems :=
            ((upsertOrderRow tid so now db).1.orderItems.filter
                (fun it => !(it.orderId == (upsertOrderRow tid so now db).2))
              ++ items.map (mkOrderItem tid (upsertOrderRow tid so now db).2
                  (upsertOrderRow tid so now db).1)) } :=
  rfl

/-- `upsertOrder` leaves the orders table as the row upsert left it. -/
theorem upsertOrder_orders (tid : String) (so : ShopifyOrder) (now : Nat) (db : Db) :
    (upsertOrder tid so now db).orders = (upsertOrderRow tid so now db).1.orders := by
  rw [upsertOrder_eq]
  cases so.line_items with
  | none => rfl
  | some items => rfl

/-- `upsertOrder` does not touch the products table. -/
theorem upsertOrder_products (tid : String) (so : ShopifyOrder) (now : Nat) (db : Db) :
    (upsertOrder tid so now db).products = db.products := by
  rw [upsertOrder_eq]
  cases so.line_items with
  | none => exact upsertOrderRow_products tid so now db
  | some items => exact upsertOrderRow_products tid so now db

/-- `upsertOrder` does not touch the sync-log table. -/
theorem upsertOrder_syncLogs (tid : String) (so : ShopifyOrder) (now : Nat) (db : Db) :
    (upsertOrder tid so now db).syncLogs = db.syncLogs := by
  rw [upsertOrder_eq]
  cases so.line_items with
  | none => exact upsertOrderRow_syncLogs tid so now db
  | some items => exact upsertOrderRow_syncLogs tid so now db

/-- `mkOrderItem` only reads the products table of its database
argument. -/
theorem mkOrderItem_congr (tid : String) (oid : Nat) (dbA dbB : Db)
    (hp : dbA.products = dbB.products) (li : ShopifyLineItem) :
    mkOrderItem tid oid dbA li = mkOrderItem tid oid dbB li := by
  unfold mkOrderItem
  rw [hp]

/-- A second `upsertOrder` with the identical payload is a no-op. -/
theorem upsertOrder_idem (tid : String) (so : ShopifyOrder) (now : Nat) (db : Db) :
    upsertOrder tid so now (upsertOrder tid so now db) = upsertOrder tid so now db := by
  have hstab : upsertOrderRow tid so now (upsertOrder tid so now db)
      = (upsertOrder tid so now db, (upsertOrderRow tid so now db).2) :=
    upsertOrderRow_stable tid so now db _ (upsertOrder_orders tid so now db)
  rw [upsertOrder_eq tid so now (upsertOrder tid so now db), hstab]
  cases hli : so.line_items with
  | none => rfl
  | some items =>
    simp only []
    have hAitems : (upsertOrder tid so now db).orderItems
        = (upsertOrderRow tid so now db).1.orderItems.filter
            (fun it => !(it.orderId == (upsertOrderRow tid so now db).2))
          ++ items.map (mkOrderItem tid (upsertOrderRow tid so now db).2
              (upsertOrderRow tid so now db).1) := by
      rw [upsertOrder_eq tid so now db, hli]
    have hitems : (upsertOrder tid so now db).orderItems.filter
        (fun it => !(it.orderId == (upsertOrderRow tid so now db).2))
        = (upsertOrderRow tid so now db).1.orderItems.filter
            (fun it => !(it.orderId == (upsertOrderRow tid so now db).2)) := by
      rw [hAitems, List.filter_append, List.filter_filter]
      have h1 : ((upsertOrderRow tid so now db).1.orderItems.filter fun a =>
          (!(a.orderId == (upsertOrderRow tid so now db).2)) &&
            !(a.orderId == (upsertOrderRow tid so now db).2))
          = (upsertOrderRow tid so now db).1.orderItems.filter
              (fun it => !(it.orderId == (upsertOrderRow tid so now db).2)) := by
        apply List.filter_congr
        intro a _
        simp
      have h2 : ((items.map (mkOrderItem tid (upsertOrderRow tid so now db).2
          (upsertOrderRow tid so now db).1)).filter
            fun it => !(it.orderId == (upsertOrderRow tid so now db).2)) = [] := by
        rw [List.filter_eq_nil_iff]
        intro a ha
        rcases List.mem_map.mp ha with ⟨li, _, rfl⟩
        simp [mkOrderItem]
      rw [h1, h2, List.append_nil]
    have hmk : items.map (mkOrderItem tid (upsertOrderRow tid so now db).2
          (upsertOrder tid so now db))
        = items.map (mkOrderItem tid (upsertOrderRow tid so now db).2
            (upsertOrderRow tid so now db).1) := by
      apply List.map_congr_left
      intro li _
      apply mkOrderItem_congr
      rw [upsertOrder_products, upsertOrderRow_products]
    rw [hitems, hmk, ← hAitems]

/-- After `upsertOrder`, exactly one order row matches the key (given the
unique-per-tenant invariant on the input state). -/
theorem upsertOrder_count (tid : String) (so : ShopifyOrder) (now : Nat) (db : Db)
    (ho : db.orders.countP (ordKey (toString so.id) tid) ≤ 1) :
    (upsertOrder tid so now db).orders.countP (ordKey (toString so.id) tid) = 1 := by
  have hk := ordKey_update_of tid so now
  rw [upsertOrder_orders]
  cases h : db.orders.find? (ordKey (toString so.id) tid) with
  | some o0 =>
    have h1 : (upsertOrderRow tid so now db).1.orders
        = db.orders.map fun r =>
            if ordKey (toString so.id) tid r then updateOrderRow so now r else r := by
      unfold upsertOrderRow; rw [h]
    have hpos : 0 < db.orders.countP (ordKey (toString so.id) tid) :=
      List.countP_pos_iff.mpr ⟨o0, List.mem_of_find?_eq_some h, List.find?_some h⟩
    rw [h1, countP_map_upsert hk]
    omega
  | none =>
    have h1 : (upsertOrderRow tid so now db).1.orders
        = db.orders ++ [createOrderRow tid so now db.nextId (resolveOrderCustomer tid so db)] := by
      unfold upsertOrderRow; rw [h]
    have hz : db.orders.countP (ordKey (toString so.id) tid) = 0 :=
      List.countP_eq_zero.mpr (List.find?_eq_none.mp h)
    rw [h1]
    simp only [List.countP_append, hz]
    simp [List.countP, List.countP.go, ordKey_create]

/-- The mirrored payload fields of an order row (`customerId`,
`createdAt`, `updatedAt` and identity excluded). -/
def orderMirror (o : OrderRow) :
    Option String × Option String × JsNum × JsNum × JsNum × Option String ×
      Option String × Option String × List String × Option String ×
      Option String × Option String :=
  (o.orderNumber, o.email, o.totalPrice, o.subtotalPrice, o.totalTax,
   o.currency, o.financialStatus, o.fulfillmentStatus, o.tags, o.note,
   o.processedAt, o.cancelledAt)

/-- The order payload fields as mapped by the upsert. -/
def orderMirrorOf (so : ShopifyOrder) :
    Option String × Option String × JsNum × JsNum × JsNum × Option String ×
      Option String × Option String × List String × Option String ×
      Option String × Option String :=
  (orderNumberOf so, so.email, parseFloatField so.total_price,
   parseFloatOrZero so.subtotal_price, parseFloatOrZero so.total_tax,
   so.currency, so.financial_status, so.fulfillment_status,
   splitTags so.tags, so.note, jsTruthyString so.processed_at,
   jsTruthyString so.cancelled_at)

/-- The row found after `upsertOrder` carries the payload's fields. -/
theorem upsertOrder_mirror (tid : String) (so : ShopifyOrder) (now : Nat) (db : Db)
    (r : OrderRow)
    (h : (upsertOrder tid so now db).orders.find? (ordKey (toString so.id) tid) = some r) :
    orderMirror r = orderMirrorOf so := by
  have hk := ordKey_update_of tid so now
  rw [upsertOrder_orders] at h
  cases hf : db.orders.find? (ordKey (toString so.id) tid) with
  | some o0 =>
    have h1 : (upsertOrderRow tid so now db).1.orders
        = db.orders.map fun r =>
            if ordKey (toString so.id) tid r then updateOrderRow so now r else r := by
      unfold upsertOrderRow; rw [hf]
    rw [h1] at h
    exact find?_map_upsert_prop (P := fun r => orderMirror r = orderMirrorOf so)
      hk (fun a => rfl) h
  | none =>
    have h1 : (upsertOrderRow tid so now db).1.orders
        = db.orders ++ [createOrderRow tid so now db.nextId (resolveOrderCustomer tid so db)] := by
      unfold upsertOrderRow; rw [hf]
    rw [h1, List.find?_append, hf] at h
    simp [List.find?, ordKey_create] at h
    rw [← h]
    rfl

/-- After `upsertOrder` with a `line_items` payload, the upserted order's
item collection is exactly the mapped payload items (delete-then-recreate). -/
theorem upsertOrder_items (tid : String) (so : ShopifyOrder) (now : Nat) (db : Db)
    (its : List ShopifyLineItem) (hli : so.line_items = some its) (r : OrderRow)
    (hr : (upsertOrder tid so now db).orders.find? (ordKey (toString so.id) tid) = some r) :
    (upsertOrder tid so now db).orderItems.filter (fun it => it.orderId == r.localId)
      = its.map (mkOrderItem tid r.localId (upsertOrder tid so now db)) := by
  have hr' : (upsertOrderRow tid so now db).1.orders.find?
      (ordKey (toString so.id) tid) = some r := by
    rw [← upsertOrder_orders tid so now db]
    exact hr
  have hloc : r.localId = (upsertOrderRow tid so now db).2 :=
    upsertOrderRow_find_localId tid so now db r hr'
  have hAitems : (upsertOrder tid so now db).orderItems
      = (upsertOrderRow tid so now db).1.orderItems.filter
          (fun it => !(it.orderId == (upsertOrderRow tid so now db).2))
        ++ its.map (mkOrderItem tid (upsertOrderRow tid so now db).2
            (upsertOrderRow tid so now db).1) := by
    rw [upsertOrder_eq tid so now db, hli]
  rw [hAitems, hloc, List.filter_append]
  have h1 : (((upsertOrderRow tid so now db).1.orderItems.filter
      (fun it => !(it.orderId == (upsertOrderRow tid so now db).2))).filter
        (fun it => it.orderId == (upsertOrderRow tid so now db).2)) = [] := by
    rw [List.filter_filter, List.filter_eq_nil_iff]
    intro a _
    simp
  have h2 : ((its.map (mkOrderItem tid (upsertOrderRow tid so now db).2
      (upsertOrderRow tid so now db).1)).filter
        (fun it => it.orderId == (upsertOrderRow tid so now db).2))
      = its.map (mkOrderItem tid (upsertOrderRow tid so now db).2
          (upsertOrderRow tid so now db).1) := by
    rw [List.filter_eq_self]
    intro a ha
    rcases List.mem_map.mp ha with ⟨li, _, rfl⟩
    simp [mkOrderItem]
  have h3 : its.map (mkOrderItem tid (upsertOrderRow tid so now db).2
        (upsertOrderRow tid so now db).1)
      = its.map (mkOrderItem tid (upsertOrderRow tid so now db).2
          (upsertOrder tid so now db)) := by
    apply List.map_congr_left
    intro li _
    apply mkOrderItem_congr
    rw [upsertOrder_products, upsertOrderRow_products]
  rw [h1, h2, h3, List.nil_append]

/-- C1: for every tenant and upstream record, applying the reconciliation
upsert (`upsertCustomer` / `upsertOrder` / `upsertProduct`) a second time
with identical input creates no duplicate — under the unique-key
invariant, exactly one local row keyed by `(externalId, tenantId)` exists
afterwards, its fields equal the latest input payload (for orders
including the rebuilt item collection), and
`upsert (upsert R) = upsert R`. -/
theorem C1_upsert_idempotent
    (tid : String) (sc : ShopifyCustomer) (so : ShopifyOrder) (sp : ShopifyProduct)
    (now : Nat) (db : Db)
    (hc : db.customers.countP (custKey (toString sc.id) tid) ≤ 1)
    (ho : db.orders.countP (ordKey (toString so.id) tid) ≤ 1)
    (hp : db.products.countP (prodKey (toString sp.id) tid) ≤ 1) :
    (upsertCustomer tid sc now (upsertCustomer tid sc now db) = upsertCustomer tid sc now db
      ∧ (upsertCustomer tid sc now db).customers.countP (custKey (toString sc.id) tid) = 1
      ∧ ∀ r, (upsertCustomer tid sc now db).customers.find? (custKey (toString sc.id) tid)
            = some r → customerMirror r = customerMirrorOf sc)
    ∧ (upsertOrder tid so now (upsertOrder tid so now db) = upsertOrder tid so now db
      ∧ (upsertOrder tid so now db).orders.countP (ordKey (toString so.id) tid) = 1
      ∧ (∀ r, (upsertOrder tid so now db).orders.find? (ordKey (toString so.id) tid)
            = some r → orderMirror r = orderMirrorOf so)
      ∧ ∀ its r, so.line_items = some its →
          (upsertOrder tid so now db).orders.find? (ordKey (toString so.id) tid) = some r →
          (upsertOrder tid so now db).orderItems.filter (fun it => it.orderId == r.localId)
            = its.map (mkOrderItem tid r.localId (upsertOrder tid so now db)))
    ∧ (upsertProduct tid sp now (upsertProduct tid sp now db) = upsertProduct tid sp now db
      ∧ (upsertProduct tid sp now db).products.countP (prodKey (toString sp.id) tid) = 1
      ∧ ∀ r, (upsertProduct tid sp now db).products.find? (prodKey (toString sp.id) tid)
            = some r → productMirror r = productMirrorOf sp) := by
  refine ⟨⟨upsertCustomer_idem tid sc now db, upsertCustomer_count tid sc now db hc,
      fun r hr => upsertCustomer_mirror tid sc now db r hr⟩,
    ⟨upsertOrder_idem tid so now db, upsertOrder_count tid so now db ho,
      fun r hr => upsertOrder_mirror tid so now db r hr,
      fun its r hli hr => upsertOrder_items tid so now db its hli r hr⟩,
    ⟨upsertProduct_idem tid sp now db, upsertProduct_count tid sp now db hp,
      fun r hr => upsertProduct_mirror tid sp now db r hr⟩⟩

/-- Witness for C1 at a concrete input: empty store, one concrete
customer, order (with one line item) and product. -/
theorem C1_upsert_idempotent_witness :
    (Db.empty.customers.countP
        (custKey (toString (7 : Nat)) "t1") ≤ 1)
    ∧ upsertOrder "t1"
        ⟨3, some 7, some 42, none, some "a@b.c", some "10.50", some "9.00",
         some "1.50", some "USD", some "paid", none, some "x, y", none,
         none, none, some [⟨some 5, some 6, some "Widget", 2, some "5.25", some "0.00"⟩]⟩ 11
        (upsertOrder "t1"
          ⟨3, some 7, some 42, none, some "a@b.c", some "10.50", some "9.00",
           some "1.50", some "USD", some "paid", none, some "x, y", none,
           none, none, some [⟨some 5, some 6, some "Widget", 2, some "5.25", some "0.00"⟩]⟩ 11
          Db.empty)
      = upsertOrder "t1"
          ⟨3, some 7, some 42, none, some "a@b.c", some "10.50", some "9.00",
           some "1.50", some "USD", some "paid", none, some "x, y", none,
           none, none, some [⟨some 5, some 6, some "Widget", 2, some "5.25", some "0.00"⟩]⟩ 11
          Db.empty
    ∧ upsertCustomer "t1"
        ⟨7, some "a@b.c", some "Ann", none, none, some "99.50", some 3,
         some "x, y", some true⟩ 11
        (upsertCustomer "t1"
          ⟨7, some "a@b.c", some "Ann", none, none, some "99.50", some 3,
           some "x, y", some true⟩ 11 Db.empty)
      = upsertCustomer "t1"
          ⟨7, some "a@b.c", some "Ann", none, none, some "99.50", some 3,
           some "x, y", some true⟩ 11 Db.empty :=
  ⟨by decide,
   (C1_upsert_idempotent "t1"
      ⟨7, some "a@b.c", some "Ann", none, none, some "99.50", some 3,
       some "x, y", some true⟩
      ⟨3, some 7, some 42, none, some "a@b.c", some "10.50", some "9.00",
       some "1.50", some "USD", some "paid", none, some "x, y", none,
       none, none, some [⟨some 5, some 6, some "Widget", 2, some "5.25", some "0.00"⟩]⟩
      ⟨5, some "Widget", none, none, none, none, none, some "active", none, none⟩
      11 Db.empty (by decide) (by decide) (by decide)).2.1.1,
   (C1_upsert_idempotent "t1"
      ⟨7, some "a@b.c", some "Ann", none, none, some "99.50", some 3,
       some "x, y", some true⟩
      ⟨3, some 7, some 42, none, some "a@b.c", some "10.50", some "9.00",
       some "1.50", some "USD", some "paid", none, some "x, y", none,
       none, none, some [⟨some 5, some 6, some "Widget", 2, some "5.25", some "0.00"⟩]⟩
      ⟨5, some "Widget", none, none, none, none, none, some "active", none, none⟩
      11 Db.empty (by decide) (by decide) (by decide)).1.1⟩

/-! ## Audit-log mutation lemmas (C2). -/

/-- Upserting any list of fetched orders never touches the sync-log
table. -/
theorem foldl_upsertOrder_syncLogs (tid : String) (now : Nat)
    (l : List ShopifyOrder) (db : Db) :
    (l.foldl (fun d o => upsertOrder tid o now d) db).syncLogs = db.syncLogs := by
  induction l generalizing db with
  | nil => rfl
  | cons o t ih =>
    simp only [List.foldl_cons]
    rw [ih, upsertOrder_syncLogs]

/-- `syncOrders` changes the sync-log table by exactly the
`updateLastSyncTime` marker append. -/
theorem syncOrders_syncLogs (f : Nat → Option Nat → Except String (List ShopifyOrder))
    (tid : String) (limit now : Nat) (db : Db) :
    (syncOrders f tid limit now db).1.syncLogs
      = updateLastSyncTime tid "orders" now db.syncLogs := by
  show updateLastSyncTime tid "orders" now
      (((fetchPagesLoop (·.id) f (min limit 250) [] none 0).1).foldl
        (fun d o => upsertOrder tid o now d) db).syncLogs
    = updateLastSyncTime tid "orders" now db.syncLogs
  rw [foldl_upsertOrder_syncLogs]

/-- `forceSyncOrders` first deletes every `(tenant, orders)` entry and
then appends the marker. -/
theorem forceSyncOrders_syncLogs (f : Nat → Option Nat → Except String (List ShopifyOrder))
    (tid : String) (limit now : Nat) (db : Db) :
    (forceSyncOrders f tid limit now db).1.syncLogs
      = updateLastSyncTime tid "orders" now (resetSyncTime tid "orders" db.syncLogs) := by
  show (syncOrders f tid limit now
      { db with syncLogs := resetSyncTime tid "orders" db.syncLogs }).1.syncLogs = _
  rw [syncOrders_syncLogs]

/-- C2 counterexample: a fresh (one-minute-old, far inside any retention
window) successful `orders` entry is deleted by the forced sync run
`forceSyncOrders` — a sync run does not only append entries. -/
theorem C2_counterexample :
    (⟨"t1", "orders", true, 5, 10, none, 100⟩ : SyncLogRow)
        ∈ ({ Db.empty with syncLogs := [⟨"t1", "orders", true, 5, 10, none, 100⟩] } : Db).syncLogs
    ∧ (⟨"t1", "orders", true, 5, 10, none, 100⟩ : SyncLogRow)
        ∉ (forceSyncOrders (fun _ _ => Except.ok []) "t1" 100 200
            { Db.empty with syncLogs := [⟨"t1", "orders", true, 5, 10, none, 100⟩] }).1.syncLogs := by
  constructor
  · decide
  · rw [forceSyncOrders_syncLogs]
    decide

/-- C2 (amended): the audit log is append-only in ordinary operation —
`syncOrders` changes the log only by appending its marker entry, every
per-type scheduler completion appends exactly one summary entry, and the
retention cleanup keeps exactly the entries at or after the cutoff — but
the forced sync path first deletes all entries of its `(tenant, type)`
(`resetSyncTime`) before appending. -/
theorem C2_syncLog_append_only :
    (∀ (f : Nat → Option Nat → Except String (List ShopifyOrder)) tid limit now db,
        (syncOrders f tid limit now db).1.syncLogs
          = updateLastSyncTime tid "orders" now db.syncLogs)
    ∧ (∀ (attempts : Nat → Except String Nat) tid ty now dur logs,
        ∃ e, (syncTenantType attempts tid ty now dur logs).2 = e :: logs)
    ∧ (∀ (cutoff : Nat) (logs : List SyncLogRow) (l : SyncLogRow),
        l ∈ cleanupSyncLogs cutoff logs ↔ l ∈ logs ∧ ¬(l.createdAt < cutoff))
    ∧ (∀ (f : Nat → Option Nat → Except String (List ShopifyOrder)) tid limit now db,
        (forceSyncOrders f tid limit now db).1.syncLogs
          = updateLastSyncTime tid "orders" now (resetSyncTime tid "orders" db.syncLogs)) := by
  refine ⟨fun f tid limit now db => syncOrders_syncLogs f tid limit now db,
    fun attempts tid ty now dur logs => ?_,
    fun cutoff logs l => ?_,
    fun f tid limit now db => forceSyncOrders_syncLogs f tid limit now db⟩
  · unfold syncTenantType
    cases (retrySync attempts 3).1 with
    | ok n => exact ⟨_, rfl⟩
    | error e => exact ⟨_, rfl⟩
  · unfold cleanupSyncLogs
    rw [List.mem_filter]
    simp

/-! ## Minimum-interval guard lemmas (C7). -/

/-- One `shouldSync` disjunct is the negation of `hasFreshSuccess`. -/
theorem shouldSync_elem (tid ty : String) (now : Nat) (logs : List SyncLogRow) :
    (match logs.find? (syncLogSuccessKey tid ty) with
      | none => true
      | some l => decide (600000 < now - l.createdAt))
      = !(hasFreshSuccess tid ty now logs) := by
  unfold hasFreshSuccess
  cases h : logs.find? (syncLogSuccessKey tid ty) with
  | none => rfl
  | some l =>
    simp only []
    rw [← decide_not, decide_eq_decide]
    exact Nat.not_le.symm

/-- `any` of pointwise-negated predicates is the negated `all`. -/
theorem any_eq_not_all {α : Type} (l : List α) (f g : α → Bool)
    (hfg : ∀ x, f x = !(g x)) : l.any f = !(l.all g) := by
  induction l with
  | nil => simp
  | cons x t ih => simp [List.any_cons, List.all_cons, hfg, ih]

/-- `shouldSync` is the negation of "every requested type has a fresh
successful entry". -/
theorem shouldSync_eq (tid : String) (types : List String) (now : Nat)
    (logs : List SyncLogRow) :
    shouldSync tid types now logs
      = !(types.all fun ty => hasFreshSuccess tid ty now logs) := by
  unfold shouldSync
  exact any_eq_not_all types _ _ (fun ty => shouldSync_elem tid ty now logs)

/-- C7 counterexample: with requested types `[orders, customers]`, a
successful `orders` entry one minute old (inside the 10-minute window)
does **not** cause the orders sync to be skipped, because `customers` has
no entry: the whole tenant sync runs, orders included. -/
theorem C7_counterexample :
    hasFreshSuccess "t1" "orders" 60000 [⟨"t1", "orders", true, 1, 1, none, 0⟩] = true
    ∧ "orders" ∈ syncTenantTypesRun false "t1" ["orders", "customers"] 60000
        [⟨"t1", "orders", true, 1, 1, none, 0⟩] := by
  decide

/-- C7 (amended): unless forced, the guard skips the **whole tenant
sync** — all requested types at once — exactly when every requested type
has a successful entry within the 10-minute window; otherwise all
requested types run, even one with a fresh entry.  The manual trigger
(`syncTenantById`) always sets the force flag, and a forced sync never
skips. -/
theorem C7_min_interval_guard :
    (∀ tid types now logs,
        syncTenantTypesRun false tid types now logs = []
          ↔ ∀ ty ∈ types, hasFreshSuccess tid ty now logs = true)
    ∧ (∀ tid types now logs,
        syncTenantTypesRun false tid types now logs = []
          ∨ syncTenantTypesRun false tid types now logs = types)
    ∧ (∀ tid types now logs, syncTenantTypesRun true tid types now logs = types)
    ∧ (∀ o : SyncOptions, (syncTenantByIdOptions o).force = true) := by
  refine ⟨fun tid types now logs => ?_, fun tid types now logs => ?_,
    fun tid types now logs => rfl, fun o => rfl⟩
  · unfold syncTenantTypesRun
    rw [shouldSync_eq]
    cases h : types.all (fun ty => hasFreshSuccess tid ty now logs) with
    | true =>
      simp [h]
      exact fun ty hty => List.all_eq_true.mp h ty hty
    | false =>
      simp [h]
      constructor
      · intro he
        subst he
        intro ty hty
        cases hty
      · intro hall
        exact absurd (List.all_eq_true.mpr hall) (by rw [h]; simp)
  · unfold syncTenantTypesRun
    cases (!false && !shouldSync tid types now logs) with
    | true => left; rfl
    | false => right; rfl

/-! ## Constant-time comparison and webhook verification (C3, C4). -/

/-- Bitwise-or of two naturals is zero exactly when both are. -/
theorem nat_lor_eq_zero_iff (a b : Nat) : a ||| b = 0 ↔ a = 0 ∧ b = 0 := by
  constructor
  · intro h
    refine ⟨Nat.eq_of_testBit_eq fun i => ?_, Nat.eq_of_testBit_eq fun i => ?_⟩
    · have hbit := congrArg (Nat.testBit · i) h
      simp only [Nat.testBit_or, Nat.zero_testBit, Bool.or_eq_false_iff] at hbit
      simpa using hbit.1
    · have hbit := congrArg (Nat.testBit · i) h
      simp only [Nat.testBit_or, Nat.zero_testBit, Bool.or_eq_false_iff] at hbit
      simpa using hbit.2
  · rintro ⟨rfl, rfl⟩
    rfl

/-- The or-accumulation is zero exactly when the accumulator and every
element are. -/
theorem foldl_lor_eq_zero (l : List Nat) :
    ∀ acc, l.foldl Nat.lor acc = 0 ↔ (acc = 0 ∧ ∀ x ∈ l, x = 0) := by
  induction l with
  | nil => intro acc; simp
  | cons v t ih =>
    intro acc
    rw [List.foldl_cons, ih]
    constructor
    · rintro ⟨hav, ht⟩
      have hor := (nat_lor_eq_zero_iff acc v).mp hav
      exact ⟨hor.1, fun x hx => by
        rcases List.mem_cons.mp hx with rfl | hx'
        · exact hor.2
        · exact ht x hx'⟩
    · rintro ⟨ha, hall⟩
      refine ⟨(nat_lor_eq_zero_iff acc v).mpr ⟨ha, hall v (List.mem_cons_self v t)⟩, ?_⟩
      exact fun x hx => hall x (List.mem_cons_of_mem v hx)

/-- The constant-time comparison decides equality of byte lists. -/
theorem timingSafeEq_iff (a b : List Nat) : timingSafeEq a b = true ↔ a = b := by
  unfold timingSafeEq xorFold
  constructor
  · intro h
    rw [Bool.and_eq_true] at h
    rcases h with ⟨hlen, hfold⟩
    have hlen' : a.length = b.length := eq_of_beq hlen
    have hz : ∀ x ∈ List.zipWith Nat.xor a b, x = 0 :=
      ((foldl_lor_eq_zero _ 0).mp (eq_of_beq hfold)).2
    apply List.ext_getElem hlen'
    intro i h1 h2
    have hilen : i < (List.zipWith Nat.xor a b).length := by
      rw [List.length_zipWith, hlen', Nat.min_self]
      exact h2
    have hmem : (List.zipWith Nat.xor a b).get ⟨i, hilen⟩ ∈ List.zipWith Nat.xor a b :=
      List.get_mem _ _ _
    have hx := hz _ hmem
    rw [List.get_eq_getElem, List.getElem_zipWith] at hx
    exact Nat.xor_eq_zero.mp hx
  · rintro rfl
    rw [Bool.and_eq_true]
    constructor
    · exact beq_self_eq_true _
    · have hfold : List.foldl Nat.lor 0 (List.zipWith Nat.xor a a) = 0 := by
        apply (foldl_lor_eq_zero _ 0).mpr
        refine ⟨rfl, fun x hx => ?_⟩
        rcases List.mem_iff_getElem.mp hx with ⟨i, hi, rfl⟩
        rw [List.getElem_zipWith]
        exact Nat.xor_self _
      rw [hfold]
      rfl

/-- `verifyWebhook` accepts exactly when the signature header equals the
HMAC-SHA256 digest of the raw body under the configured secret. -/
theorem verifyWebhook_iff (mac : List Nat → List Nat → List Nat)
    (body sig secret : List Nat) :
    verifyWebhook mac body sig secret = true ↔ sig = mac secret body := by
  unfold verifyWebhook
  exact timingSafeEq_iff sig (mac secret body)

/-- C3: webhook verification computes the base64 HMAC-SHA256 of the raw
body and compares it with the signature header by a constant-time
equality check; with a configured secret, a tampered body whose digest no
longer matches the signature is rejected with 401, the identical
untampered payload+signature pair is accepted (200), and with no secret
configured verification is skipped — a 401 is impossible. -/
theorem C3_webhook_signature (mac : List Nat → List Nat → List Nat)
    (rateOk : Bool) (tenants : List TenantRow) (parseOk : Bool)
    (handler : Except String Unit) (sig : List Nat) (topic shop : String)
    (body tampered : List Nat) (t : TenantRow) (secret : List Nat)
    (now dur : Nat) (logs : List SyncLogRow)
    (htopic : topic ≠ "") (hshop : shop ≠ "") (hrate : rateOk = true)
    (hbody : body ≠ []) (htampered : tampered ≠ [])
    (hfind : tenants.find? (·.shopifyDomain == shop) = some t) :
    (∀ b s k, verifyWebhook mac b s k = true ↔ s = mac k b)
    ∧ (t.webhookSecret = some secret → sig = mac secret body →
        mac secret tampered ≠ sig →
        (webhookPOST mac rateOk tenants parseOk handler
          ⟨some sig, some topic, some shop, tampered⟩ now dur logs).1 = 401)
    ∧ (t.webhookSecret = some secret → sig = mac secret body → parseOk = true →
        (webhookPOST mac rateOk tenants parseOk handler
          ⟨some sig, some topic, some shop, body⟩ now dur logs).1 = 200)
    ∧ (t.webhookSecret = none →
        (webhookPOST mac rateOk tenants parseOk handler
          ⟨some sig, some topic, some shop, body⟩ now dur logs).1 ≠ 401) := by
  refine ⟨fun b s k => verifyWebhook_iff mac b s k, ?_, ?_, ?_⟩
  · intro hsec hsig htamp
    have hver : verifyWebhook mac tampered sig secret = false := by
      cases hv : verifyWebhook mac tampered sig secret with
      | false => rfl
      | true => exact absurd ((verifyWebhook_iff mac tampered sig secret).mp hv).symm htamp
    unfold webhookPOST headersValid
    simp [htopic, hshop, hrate, htampered, hfind, hsec, hver]
  · intro hsec hsig hparse
    have hver : verifyWebhook mac body sig secret = true :=
      (verifyWebhook_iff mac body sig secret).mpr hsig
    unfold webhookPOST headersValid
    cases handler with
    | ok u => simp [htopic, hshop, hrate, hbody, hfind, hsec, hver, hparse]
    | error e => simp [htopic, hshop, hrate, hbody, hfind, hsec, hver, hparse]
  · intro hsec
    unfold webhookPOST headersValid
    cases parseOk with
    | false => simp [htopic, hshop, hrate, hbody, hfind, hsec]
    | true =>
      cases handler with
      | ok u => simp [htopic, hshop, hrate, hbody, hfind, hsec]
      | error e => simp [htopic, hshop, hrate, hbody, hfind, hsec]

/-- Witness for C3 at a concrete input: toy digest `mac k b = k ++ b`,
one tenant with secret `[1,2]`, body `[7,8]`, signature `[1,2,7,8]`,
tampered body `[9]`. -/
theorem C3_webhook_signature_witness :
    (webhookPOST (fun k b => k ++ b) true [⟨"t1", "Shop", "s.example", some [1, 2]⟩]
        true (Except.ok ()) ⟨some [1, 2, 7, 8], some "orders/create", some "s.example", [9]⟩
        50 3 []).1 = 401
    ∧ (webhookPOST (fun k b => k ++ b) true [⟨"t1", "Shop", "s.example", some [1, 2]⟩]
        true (Except.ok ()) ⟨some [1, 2, 7, 8], some "orders/create", some "s.example", [7, 8]⟩
        50 3 []).1 = 200 :=
  ⟨(C3_webhook_signature (fun k b => k ++ b) true [⟨"t1", "Shop", "s.example", some [1, 2]⟩]
      true (Except.ok ()) [1, 2, 7, 8] "orders/create" "s.example" [7, 8] [9]
      ⟨"t1", "Shop", "s.example", some [1, 2]⟩ [1, 2] 50 3 []
      (by decide) (by decide) rfl (by decide) (by decide) (by decide)).2.1
      rfl rfl (by decide),
   (C3_webhook_signature (fun k b => k ++ b) true [⟨"t1", "Shop", "s.example", some [1, 2]⟩]
      true (Except.ok ()) [1, 2, 7, 8] "orders/create" "s.example" [7, 8] [9]
      ⟨"t1", "Shop", "s.example", some [1, 2]⟩ [1, 2] 50 3 []
      (by decide) (by decide) rfl (by decide) (by decide) (by decide)).2.2.1
      rfl rfl rfl⟩

/-- C4: when the topic handler throws, the exception is caught, one
failed audit-log entry carrying the failure reason is appended for the
resolved tenant, and the HTTP status returned to the sender is still
200. -/
theorem C4_handler_error_isolated (mac : List Nat → List Nat → List Nat)
    (rateOk : Bool) (tenants : List TenantRow) (parseOk : Bool) (e : String)
    (sig : List Nat) (topic shop : String) (body : List Nat) (t : TenantRow)
    (now dur : Nat) (logs : List SyncLogRow)
    (htopic : topic ≠ "") (hshop : shop ≠ "") (hrate : rateOk = true)
    (hbody : body ≠ [])
    (hfind : tenants.find? (·.shopifyDomain == shop) = some t)
    (hver : t.webhookSecret = none
      ∨ ∃ secret, t.webhookSecret = some secret ∧ sig = mac secret body)
    (hparse : parseOk = true) :
    (webhookPOST mac rateOk tenants parseOk (Except.error e)
        ⟨some sig, some topic, some shop, body⟩ now dur logs).1 = 200
    ∧ (webhookPOST mac rateOk tenants parseOk (Except.error e)
        ⟨some sig, some topic, some shop, body⟩ now dur logs).2
      = logWebhookRequest t.id topic false dur (some e) now logs := by
  rcases hver with hsec | ⟨secret, hsec, hsig⟩
  · unfold webhookPOST headersValid
    constructor
    · simp [htopic, hshop, hrate, hbody, hfind, hsec, hparse]
    · simp [htopic, hshop, hrate, hbody, hfind, hsec, hparse]
  · have hv : verifyWebhook mac body sig secret = true :=
      (verifyWebhook_iff mac body sig secret).mpr hsig
    unfold webhookPOST headersValid
    constructor
    · simp [htopic, hshop, hrate, hbody, hfind, hsec, hv, hparse]
    · simp [htopic, hshop, hrate, hbody, hfind, hsec, hv, hparse]

/-- Witness for C4 at a concrete input: handler throws `"boom"`; the
response is 200 and the head log entry records the failure for the
tenant. -/
theorem C4_handler_error_isolated_witness :
    (webhookPOST (fun k b => k ++ b) true [⟨"t1", "Shop", "s.example", none⟩]
        true (Except.error "boom")
        ⟨some [3], some "orders/create", some "s.example", [7]⟩ 50 4 []).1 = 200
    ∧ (webhookPOST (fun k b => k ++ b) true [⟨"t1", "Shop", "s.example", none⟩]
        true (Except.error "boom")
        ⟨some [3], some "orders/create", some "s.example", [7]⟩ 50 4 []).2
      = logWebhookRequest "t1" "orders/create" false 4 (some "boom") 50 [] :=
  C4_handler_error_isolated (fun k b => k ++ b) true [⟨"t1", "Shop", "s.example", none⟩]
    true "boom" [3] "orders/create" "s.example" [7] ⟨"t1", "Shop", "s.example", none⟩
    50 4 [] (by decide) (by decide) rfl (by decide) (by decide) (Or.inl rfl) rfl

/-! ## Cart-abandonment idempotence (C9). -/

/-- The event created by the abandonment check matches its own cart key. -/
theorem mkAbandonEvent_key (cart : ShopifyCart) (tid : String)
    (customerId : Option Nat) (items : List ShopifyLineItem) (now : Nat) :
    cartAbandonedKey tid cart.id (mkAbandonEvent cart tid customerId items now) = true := by
  simp [cartAbandonedKey, mkAbandonEvent]

/-- One abandonment check preserves "at most one `cart_abandoned` event
per cart id". -/
theorem detectCartAbandonment_count (cart : ShopifyCart) (tid : String)
    (customerId : Option Nat) (now : Nat) (db : Db) (cid : Nat)
    (hid : cart.id = cid)
    (hle : db.events.countP (cartAbandonedKey tid cid) ≤ 1) :
    (detectCartAbandonment cart tid customerId now db).events.countP
      (cartAbandonedKey tid cid) ≤ 1 := by
  subst hid
  unfold detectCartAbandonment
  cases cart.line_items with
  | none => exact hle
  | some items =>
    simp only []
    by_cases h0 : items.length = 0
    · simp [h0]; exact hle
    · simp only [h0, if_false]
      cases h1 : (db.events.find? (cartAbandonedKey tid cart.id)).isSome with
      | true => simp [h1]; exact hle
      | false =>
        simp only [h1, Bool.false_eq_true, if_false]
        cases h2 : (db.orders.find? fun o =>
            o.tenantId == tid && o.customerId == customerId
              && decide (cart.updated_at ≤ o.createdAt)).isSome with
        | true => simp [h2]; exact hle
        | false =>
          simp only [h2, Bool.false_eq_true, if_false]
          cases h3 : (db.events.find? fun ev =>
              ev.tenantId == tid && ev.customerId == customerId
                && ev.eventType == "checkout_started"
                && decide (cart.updated_at ≤ ev.createdAt)).isSome with
          | true => simp [h3]; exact hle
          | false =>
            simp only [h3, Bool.false_eq_true, if_false]
            have hz : db.events.countP (cartAbandonedKey tid cart.id) = 0 := by
              apply List.countP_eq_zero.mpr
              apply List.find?_eq_none.mp
              exact Option.not_isSome_iff_eq_none.mp (by rw [h1]; exact Bool.false_ne_true)
            simp only [List.countP_append, hz]
            simp [List.countP, List.countP.go, mkAbandonEvent_key]
  
/-- If a `cart_abandoned` event for this cart already exists, the check
is a no-op. -/
theorem detectCartAbandonment_skip (cart : ShopifyCart) (tid : String)
    (customerId : Option Nat) (now : Nat) (db : Db)
    (h : (db.events.find? (cartAbandonedKey tid cart.id)).isSome) :
    detectCartAbandonment cart tid customerId now db = db := by
  unfold detectCartAbandonment
  cases cart.line_items with
  | none => rfl
  | some items =>
    simp only []
    by_cases h0 : items.length = 0
    · simp [h0]
    · simp [h0, h]

/-- Any sequence of deferred abandonment checks for one cart id keeps
the at-most-one bound on `cart_abandoned` events. -/
theorem foldl_detect_count (tid : String) (cid : Nat) :
    ∀ (ctxs : List (ShopifyCart × Option Nat × Nat)) (db : Db),
    (∀ c ∈ ctxs, (c.1).id = cid) →
    db.events.countP (cartAbandonedKey tid cid) ≤ 1 →
    ((ctxs.foldl (fun d c => detectCartAbandonment c.1 tid c.2.1 c.2.2 d) db).events.countP
      (cartAbandonedKey tid cid)) ≤ 1 := by
  intro ctxs
  induction ctxs with
  | nil => intro db _ hle; exact hle
  | cons c t ih =>
    intro db hmem hle
    simp only [List.foldl_cons]
    exact ih _ (fun x hx => hmem x (List.mem_cons_of_mem c hx))
      (detectCartAbandonment_count c.1 tid c.2.1 c.2.2 db cid
        (hmem c (List.mem_cons_self c t)) hle)

/-- C9: for each cart id, at most one `cart_abandoned` CustomEvent is
ever created no matter how many deferred checks fire for it: a check is
skipped outright when an event for the cart id already exists, one check
preserves the at-most-one bound, and any sequence of deferred checks for
the same cart id keeps the bound. -/
theorem C9_abandonment_idempotent (tid : String) (cart : ShopifyCart)
    (customerId : Option Nat) (now : Nat) (db : Db) (cid : Nat)
    (ctxs : List (ShopifyCart × Option Nat × Nat))
    (hmem : ∀ c ∈ ctxs, (c.1).id = cid)
    (hle : db.events.countP (cartAbandonedKey tid cid) ≤ 1) :
    ((db.events.find? (cartAbandonedKey tid cart.id)).isSome →
        detectCartAbandonment cart tid customerId now db = db)
    ∧ (cart.id = cid →
        (detectCartAbandonment cart tid customerId now db).events.countP
          (cartAbandonedKey tid cid) ≤ 1)
    ∧ ((ctxs.foldl (fun d c => detectCartAbandonment c.1 tid c.2.1 c.2.2 d) db).events.countP
        (cartAbandonedKey tid cid)) ≤ 1 := by
  exact ⟨fun h => detectCartAbandonment_skip cart tid customerId now db h,
    fun hid => detectCartAbandonment_count cart tid customerId now db cid hid hle,
    foldl_detect_count tid cid ctxs db hmem hle⟩

/-- Witness for C9 at a concrete input: two deferred checks fire for
cart 9 on an empty store; afterwards at most one abandonment event
exists. -/
theorem C9_abandonment_idempotent_witness :
    (([(⟨9, none, some "5", some [⟨none, none, none, 1, some "5", none⟩],
          none, none, none, 0⟩, (none : Option Nat), 70000),
        (⟨9, none, some "5", some [⟨none, none, none, 1, some "5", none⟩],
          none, none, none, 0⟩, (none : Option Nat), 140000)].foldl
        (fun d c => detectCartAbandonment c.1 "t1" c.2.1 c.2.2 d) Db.empty).events.countP
      (cartAbandonedKey "t1" 9)) ≤ 1 :=
  (C9_abandonment_idempotent "t1"
    ⟨9, none, some "5", some [⟨none, none, none, 1, some "5", none⟩], none, none, none, 0⟩
    none 70000 Db.empty 9
    [(⟨9, none, some "5", some [⟨none, none, none, 1, some "5", none⟩],
        none, none, none, 0⟩, none, 70000),
     (⟨9, none, some "5", some [⟨none, none, none, 1, some "5", none⟩],
        none, none, none, 0⟩, none, 140000)]
    (by decide) (by decide)).2.2

/-! ## Defensive numeric parsing in the order upsert (C10). -/

/-- C10 counterexample: an order whose `total_price` is missing is stored
with `totalPrice = NaN`, not zero (`parseFloat(undefined)` has no
`|| '0'` fallback), and an invalid non-empty string like `"abc"` also
parses to NaN even in the fields that have the fallback. -/
theorem C10_counterexample :
    (((upsertOrder "t1"
        ⟨3, none, none, none, none, none, none, none, none, none, none,
         none, none, none, none, none⟩ 5 Db.empty).orders.find?
          (ordKey (toString (3 : Nat)) "t1")).map (·.totalPrice)) = some JsNum.nan
    ∧ JsNum.nan ≠ JsNum.num 0
    ∧ parseFloatOrZero (some "abc") = JsNum.nan := by
  refine ⟨?_, by decide, by decide⟩
  decide

/-- The fallback string parses to exactly zero. -/
theorem jsParseFloat_zero : jsParseFloat "0" = JsNum.num 0 := by
  have h : jsParseFloat "0"
      = JsNum.num (((0 * 10 + ('0'.toNat - 48) : Nat) : Rat)
          + ((0 : Nat) : Rat) / (10 : Rat) ^ (0 : Nat)) := rfl
  have h0 : ('0'.toNat - 48 : Nat) = 0 := rfl
  rw [h, h0]
  norm_num

/-- C10 (amended): the record is never dropped — the upsert always leaves
a row under the key — and the numeric fields are parsed as follows:
fields with the `|| '0'` fallback (`subtotal_price`, `total_tax`,
line-item `total_discount`) store zero when missing or empty but NaN for
an invalid non-empty string; `total_price` and line-item `price` have no
fallback, so a missing value is stored as NaN. -/
theorem C10_defensive_parsing :
    (∀ tid (so : ShopifyOrder) now db, ∃ r,
        (upsertOrder tid so now db).orders.find? (ordKey (toString so.id) tid) = some r)
    ∧ (∀ tid (so : ShopifyOrder) now db r,
        (upsertOrder tid so now db).orders.find? (ordKey (toString so.id) tid) = some r →
        r.totalPrice = parseFloatField so.total_price
          ∧ r.subtotalPrice = parseFloatOrZero so.subtotal_price
          ∧ r.totalTax = parseFloatOrZero so.total_tax)
    ∧ (∀ tid oid db (li : ShopifyLineItem),
        (mkOrderItem tid oid db li).price = parseFloatField li.price
          ∧ (mkOrderItem tid oid db li).totalDiscount = parseFloatOrZero li.total_discount)
    ∧ parseFloatOrZero none = JsNum.num 0
    ∧ parseFloatOrZero (some "") = JsNum.num 0
    ∧ parseFloatOrZero (some "abc") = JsNum.nan
    ∧ parseFloatField none = JsNum.nan := by
  refine ⟨?_, ?_, fun tid oid db li => ⟨rfl, rfl⟩, jsParseFloat_zero, jsParseFloat_zero,
    by decide, rfl⟩
  · intro tid so now db
    obtain ⟨r, hr, _⟩ := upsertOrderRow_find tid so now db
    refine ⟨r, ?_⟩
    rw [upsertOrder_orders]
    exact hr
  · intro tid so now db r hr
    have h := upsertOrder_mirror tid so now db r hr
    exact ⟨congrArg (fun t => t.2.2.1) h, congrArg (fun t => t.2.2.2.1) h,
      congrArg (fun t => t.2.2.2.2.1) h⟩

/-- Witness for C10 at a concrete input: the all-missing order is stored
(as the created row) and its `totalPrice` is the fallback-less parse of a
missing field, which is NaN. -/
theorem C10_defensive_parsing_witness :
    ((upsertOrder "t1"
        ⟨3, none, none, none, none, none, none, none, none, none, none,
         none, none, none, none, none⟩ 5 Db.empty).orders.find?
          (ordKey (toString (3 : Nat)) "t1")
      = some (createOrderRow "t1"
          ⟨3, none, none, none, none, none, none, none, none, none, none,
           none, none, none, none, none⟩ 5 0 none))
    ∧ (createOrderRow "t1"
        ⟨3, none, none, none, none, none, none, none, none, none, none,
         none, none, none, none, none⟩ 5 0 none).totalPrice
      = parseFloatField (none : Option String) :=
  ⟨rfl,
   (C10_defensive_parsing.2.1 "t1"
      ⟨3, none, none, none, none, none, none, none, none, none, none,
       none, none, none, none, none⟩ 5 Db.empty
      (createOrderRow "t1"
        ⟨3, none, none, none, none, none, none, none, none, none, none,
         none, none, none, none, none⟩ 5 0 none) rfl).1⟩

/-! ## Pagination page-count (C6). -/

/-- Position encoded by a `page_info` cursor: the number of records
already served (the cursor is the last served record's id). -/
def cursorPos (pi : Option Nat) : Nat :=
  match pi with
  | none => 0
  | some i => i + 1

/-- The claim's upstream environment: `N` records with ids `0..N-1`,
served in id order in pages of at most `P` records after the cursor. -/
def seqFetch (N P : Nat) : Nat → Option Nat → Except String (List Nat) :=
  fun _ pi => Except.ok (List.range' (cursorPos pi) (min P (N - cursorPos pi)))

/-- Last element of a nonempty `range'`. -/
theorem range'_getLast? (s n : Nat) (hn : 0 < n) :
    (List.range' s n).getLast? = some (s + n - 1) := by
  obtain ⟨m, rfl⟩ : ∃ m, n = m + 1 := ⟨n - 1, by omega⟩
  rw [List.range'_concat, List.getLast?_concat]
  congr 1
  omega

/-- The pagination loop over the sequential source, started at any
aligned cursor position, fetches the remaining records and makes
`(N - s) / P + 1` further fetch calls. -/
theorem fetchPagesLoop_seq_aux (N P : Nat) (hP : 0 < P) (hN : N < 5000) :
    ∀ k s pc, k = N - s → s ≤ N →
    fetchPagesLoop (fun x => x) (seqFetch N P) P (List.range' 0 s)
        (if s = 0 then none else some (s - 1)) pc
      = (List.range' 0 N, pc + (N - s) / P + 1) := by
  intro k
  induction k using Nat.strong_induction_on with
  | _ k ih =>
    intro s pc hk hs
    have hcp : cursorPos (if s = 0 then none else some (s - 1)) = s := by
      cases s with
      | zero => rfl
      | succ m => simp [cursorPos]
    have hsf : seqFetch N P (pc + 1) (if s = 0 then none else some (s - 1))
        = Except.ok (List.range' s (min P (N - s))) := by
      unfold seqFetch
      rw [hcp]
    rw [fetchPagesLoop]
    rw [dif_pos (show (List.range' 0 s).length < 5000 by rw [List.length_range']; omega)]
    simp only [hsf, List.length_range']
    by_cases hr0 : N - s = 0
    · have hmin : min P (N - s) = 0 := by omega
      rw [hmin]
      have hsN : s = N := by omega
      subst hsN
      simp
    · by_cases hrP : N - s < P
      · have hmin : min P (N - s) = N - s := by omega
        rw [hmin, if_neg hr0, if_pos hrP]
        have happ : List.range' 0 s ++ List.range' s (N - s) = List.range' 0 N := by
          have h2 := List.range'_append_1 0 s (N - s)
          rw [Nat.zero_add] at h2
          rw [show N - s + s = N from by omega] at h2
          exact h2
        rw [happ, Nat.div_eq_of_lt hrP]
      · have hmin : min P (N - s) = P := by omega
        rw [hmin, if_neg (by omega), if_neg (by omega)]
        have happ : List.range' 0 s ++ List.range' s P = List.range' 0 (s + P) := by
          have h2 := List.range'_append_1 0 s P
          rw [Nat.zero_add] at h2
          rw [show P + s = s + P from Nat.add_comm P s] at h2
          exact h2
        rw [happ, range'_getLast? s P hP]
        have hlast : (Option.map (fun x : Nat => x) (some (s + P - 1))).getD 0
            = s + P - 1 := rfl
        rw [hlast]
        have hcur : (some (s + P - 1)) = (if s + P = 0 then none else some (s + P - 1)) := by
          rw [if_neg (by omega)]
        rw [hcur]
        rw [ih (N - (s + P)) (by omega) (s + P) (pc + 1) rfl (by omega)]
        have hdiv : (N - s) / P = (N - (s + P)) / P + 1 := by
          have h2 : N - s - P = N - (s + P) := by omega
          rw [← h2]
          exact Nat.div_eq_sub_div hP (by omega)
        rw [hdiv]
        congr 1
        omega

/-- The pagination loop over `N` sequential records with page size `P`
fetches every record and makes exactly `N / P + 1` fetch calls. -/
theorem fetchPagesLoop_seq (N P : Nat) (hP : 0 < P) (hN : N < 5000) :
    fetchPagesLoop (fun x => x) (seqFetch N P) P [] none 0
      = (List.range' 0 N, N / P + 1) := by
  have h := fetchPagesLoop_seq_aux N P hP hN N 0 0 rfl (Nat.zero_le N)
  simpa using h

/-- C6 counterexample: 100 upstream records with page size 100 (an exact
multiple) take **2** fetch calls — the loop needs a trailing empty page
to observe the end — while `ceil(100/100) = 1`. -/
theorem C6_counterexample :
    (fetchPagesLoop (fun x => x) (seqFetch 100 100) 100 [] none 0).2 = 2
    ∧ (100 + 100 - 1) / 100 = 1 := by
  constructor
  · rw [fetchPagesLoop_seq 100 100 (by norm_num) (by norm_num)]
  · norm_num

/-- C6 (amended): over `N` sequential upstream records with page size `P`
(below the 5000-record cap), the pagination loop fetches every record,
stopping after the first short or empty page, and makes exactly
`N / P + 1` fetch calls — which equals `ceil(N/P)` exactly when `P` does
not divide `N`; when `P` divides `N` (including `N = 0`) one extra
confirming call is made. -/
theorem C6_pagination_pages (N P : Nat) (hP : 0 < P) (hN : N < 5000) :
    fetchPagesLoop (fun x => x) (seqFetch N P) P [] none 0 = (List.range' 0 N, N / P + 1)
    ∧ (N % P ≠ 0 → N / P + 1 = (N + P - 1) / P) := by
  refine ⟨fetchPagesLoop_seq N P hP hN, fun hmod => ?_⟩
  have hq := Nat.div_add_mod N P
  have hrP : N % P < P := Nat.mod_lt N hP
  have h1 : N + P - 1 = (N % P - 1) + (N / P + 1) * P := by
    have hexp : (N / P + 1) * P = P * (N / P) + P := by ring
    omega
  rw [h1, Nat.add_mul_div_right _ _ hP]
  have h2 : (N % P - 1) / P = 0 := Nat.div_eq_of_lt (by omega)
  rw [h2]
  omega

/-- Witness for C6 at a concrete input: 5 records, page size 2, three
fetch calls (2 + 2 + 1 records). -/
theorem C6_pagination_pages_witness :
    (0 : Nat) < 2 ∧ (5 : Nat) < 5000
    ∧ fetchPagesLoop (fun x => x) (seqFetch 5 2) 2 [] none 0 = (List.range' 0 5, 3) :=
  ⟨by norm_num, by norm_num, by
    have h := (C6_pagination_pages 5 2 (by norm_num) (by norm_num)).1
    simpa using h⟩

/-! ## Retry behaviour and page-failure swallowing (C5, C8). -/

/-- `retrySync` over 3 attempts: two failures then a success yield the
success, after backoff delays of 1s and 2s. -/
theorem retrySync_ok3 {α : Type} (attempts : Nat → Except String α) (e1 e2 : String)
    (v : α) (h1 : attempts 1 = Except.error e1) (h2 : attempts 2 = Except.error e2)
    (h3 : attempts 3 = Except.ok v) :
    retrySync attempts 3 = (Except.ok v, [1000, 2000]) := by
  simp [retrySync, retrySyncAux, h1, h2, h3]

/-- `retrySync` over 3 attempts: three failures propagate exactly the
final error, after the same delays. -/
theorem retrySync_err3 {α : Type} (attempts : Nat → Except String α) (e1 e2 e3 : String)
    (h1 : attempts 1 = Except.error e1) (h2 : attempts 2 = Except.error e2)
    (h3 : attempts 3 = Except.error e3) :
    retrySync attempts 3 = (Except.error e3, [1000, 2000]) := by
  simp [retrySync, retrySyncAux, h1, h2, h3]

/-- A failed first page fetch ends pagination immediately: no record is
accumulated and the fetcher is called exactly once — it is not retried. -/
theorem fetchPagesLoop_first_error {α : Type} (idOf : α → Nat)
    (f : Nat → Option Nat → Except String (List α)) (p : Nat) (e : String)
    (hf : f 1 none = Except.error e) :
    fetchPagesLoop idOf f p [] none 0 = ([], 1) := by
  rw [fetchPagesLoop]
  simp [hf]

/-- Projections of `syncOrders` through the pair destructuring. -/
theorem syncOrders_counts (f : Nat → Option Nat → Except String (List ShopifyOrder))
    (tid : String) (limit now : Nat) (db : Db) :
    (syncOrders f tid limit now db).2
      = ((fetchPagesLoop (·.id) f (min limit 250) [] none 0).1.length,
         (fetchPagesLoop (·.id) f (min limit 250) [] none 0).2) :=
  rfl

/-- C5 counterexample: with a fetcher that fails on its first call and
would succeed with one record on any later call, `syncOrders` processes
0 records and calls the fetcher exactly once — the failed page fetch is
not re-attempted (no 3-attempt page-level retry exists), yet the sync
still completes as a success, appending its marker entry. -/
theorem C5_counterexample :
    (syncOrders
        (fun k _ => if k = 1 then Except.error "netfail"
          else Except.ok [⟨8, none, none, none, none, none, none, none, none,
            none, none, none, none, none, none, none⟩])
        "t1" 100 50 Db.empty).2 = (0, 1) := by
  rw [syncOrders_counts]
  rw [fetchPagesLoop_first_error _ _ _ "netfail" rfl]
  rfl

/-- C5 (amended): the 3-attempt, 1s-base doubling retry loop wraps each
whole per-type sync invocation, not each page fetch: a sync invocation
failing twice then succeeding on the 3rd attempt yields a successful
result carrying its processed count, one failing on all 3 attempts yields
a failed sync-log entry with the final error message, the backoff delays
are non-decreasing, and an individual page-fetch failure inside a sync is
swallowed — pagination ends, the fetch is not re-attempted, and the sync
still completes successfully. -/
theorem C5_retry_backoff (attempts : Nat → Except String Nat) (tid ty : String)
    (now dur limit : Nat) (logs : List SyncLogRow) (db : Db) (e1 e2 e3 : String)
    (v : Nat) (f : Nat → Option Nat → Except String (List ShopifyOrder)) (e : String) :
    (attempts 1 = Except.error e1 → attempts 2 = Except.error e2 →
      attempts 3 = Except.ok v →
      retrySync attempts 3 = (Except.ok v, [1000, 2000])
        ∧ (syncTenantType attempts tid ty now dur logs).1.success = true
        ∧ (syncTenantType attempts tid ty now dur logs).1.recordsProcessed = v)
    ∧ (attempts 1 = Except.error e1 → attempts 2 = Except.error e2 →
      attempts 3 = Except.error e3 →
      retrySync attempts 3 = (Except.error e3, [1000, 2000])
        ∧ (syncTenantType attempts tid ty now dur logs).2
          = logSyncResult tid ty false 0 dur (some e3) now logs)
    ∧ List.Chain' (· ≤ ·) [1000, 2000]
    ∧ (f 1 none = Except.error e →
        (syncOrders f tid limit now db).2.1 = 0
        ∧ (syncOrders f tid limit now db).2.2 = 1
        ∧ (syncOrders f tid limit now db).1.syncLogs
          = updateLastSyncTime tid "orders" now db.syncLogs) := by
  refine ⟨fun h1 h2 h3 => ?_, fun h1 h2 h3 => ?_, by norm_num [List.chain'_cons], fun hf => ?_⟩
  · have hr := retrySync_ok3 attempts e1 e2 v h1 h2 h3
    refine ⟨hr, ?_, ?_⟩ <;>
      · unfold syncTenantType
        rw [hr]
  · have hr := retrySync_err3 attempts e1 e2 e3 h1 h2 h3
    refine ⟨hr, ?_⟩
    unfold syncTenantType
    rw [hr]
  · have hloop := fetchPagesLoop_first_error (·.id) f (min limit 250) e hf
    refine ⟨?_, ?_, syncOrders_syncLogs f tid limit now db⟩
    · rw [syncOrders_counts, hloop]
      rfl
    · rw [syncOrders_counts, hloop]

/-- Witness for C5 at concrete inputs: an attempt oracle failing twice
then succeeding with 7 records, one failing three times, and a fetcher
failing its first call. -/
theorem C5_retry_backoff_witness :
    retrySync (fun i => if i = 1 then Except.error "a"
        else if i = 2 then Except.error "b" else Except.ok 7) 3
      = (Except.ok 7, [1000, 2000])
    ∧ (syncTenantType (fun _ => Except.error "c") "t1" "orders" 9 2 []).2
      = logSyncResult "t1" "orders" false 0 2 (some "c") 9 []
    ∧ (syncOrders (fun _ _ => Except.error "netfail") "t1" 100 50 Db.empty).2.2 = 1 :=
  ⟨(C5_retry_backoff (fun i => if i = 1 then Except.error "a"
        else if i = 2 then Except.error "b" else Except.ok 7) "t1" "orders" 9 2 100 []
      Db.empty "a" "b" "c" 7 (fun _ _ => Except.error "netfail") "netfail").1
      rfl rfl rfl |>.1,
   (C5_retry_backoff (fun _ => Except.error "c") "t1" "orders" 9 2 100 []
      Db.empty "c" "c" "c" 7 (fun _ _ => Except.error "netfail") "netfail").2.1
      rfl rfl rfl |>.2,
   (C5_retry_backoff (fun i => if i = 1 then Except.error "a"
        else if i = 2 then Except.error "b" else Except.ok 7) "t1" "orders" 9 2 100 []
      Db.empty "a" "b" "c" 7 (fun _ _ => Except.error "netfail") "netfail").2.2.2
      rfl |>.2.1⟩

/-! ## Audit-log rows written per sync attempt (C8). -/

/-- The successful per-type orders path writes the scheduler summary row
on top of the service's marker row. -/
theorem syncTenantOrders_syncLogs (f : Nat → Option Nat → Except String (List ShopifyOrder))
    (tid : String) (now dur : Nat) (db : Db) :
    (syncTenantOrders f tid now dur db).2.syncLogs
      = logSyncResult tid "orders" true (syncOrders f tid 100 now db).2.1 dur none now
          (updateLastSyncTime tid "orders" now db.syncLogs) := by
  show logSyncResult tid "orders" true (syncOrders f tid 100 now db).2.1 dur none now
      (syncOrders f tid 100 now db).1.syncLogs = _
  rw [syncOrders_syncLogs]

/-- C8 counterexample: one completed successful sync attempt for
`(t1, orders)` appends **two** audit-log rows for that tenant and type —
the `updateLastSyncTime` marker (recordsProcessed 0) from inside the
service and the scheduler's summary row — not exactly one. -/
theorem C8_counterexample :
    ((syncTenantOrders (fun _ _ => Except.ok []) "t1" 7 4 Db.empty).2.syncLogs.countP
      (fun l => l.tenantId == "t1" && l.syncType == "orders")) = 2 := by
  rw [syncTenantOrders_syncLogs]
  decide

/-- C8 (amended): a completed failed attempt appends exactly one summary
row (success false, recordsProcessed 0, the final error); a completed
successful orders attempt appends exactly two rows — the scheduler
summary row, whose `recordsProcessed` equals the number of records
actually fetched and processed, on top of the service's marker row with
`recordsProcessed` 0. -/
theorem C8_sync_log_rows (f : Nat → Option Nat → Except String (List ShopifyOrder))
    (attempts : Nat → Except String Nat) (tid ty : String) (now dur : Nat)
    (db : Db) (logs : List SyncLogRow) (e1 e2 e3 : String) :
    ((syncTenantOrders f tid now dur db).2.syncLogs
        = logSyncResult tid "orders" true
            (syncTenantOrders f tid now dur db).1.recordsProcessed dur none now
            (updateLastSyncTime tid "orders" now db.syncLogs))
    ∧ (syncTenantOrders f tid now dur db).1.recordsProcessed
        = (fetchPagesLoop (·.id) f (min 100 250) [] none 0).1.length
    ∧ (attempts 1 = Except.error e1 → attempts 2 = Except.error e2 →
        attempts 3 = Except.error e3 →
        (syncTenantType attempts tid ty now dur logs).2
          = logSyncResult tid ty false 0 dur (some e3) now logs
        ∧ (syncTenantType attempts tid ty now dur logs).1.success = false) := by
  refine ⟨syncTenantOrders_syncLogs f tid now dur db, rfl, fun h1 h2 h3 => ?_⟩
  have hr := retrySync_err3 attempts e1 e2 e3 h1 h2 h3
  constructor <;>
    · unfold syncTenantType
      rw [hr]

/-- Witness for C8 at a concrete input: an always-failing attempt oracle
appends exactly the one failed summary row. -/
theorem C8_sync_log_rows_witness :
    (syncTenantType (fun _ => Except.error "x") "t1" "orders" 9 2 []).2
      = logSyncResult "t1" "orders" false 0 2 (some "x") 9 []
    ∧ (syncTenantType (fun _ => Except.error "x") "t1" "orders" 9 2 []).1.success = false :=
  (C8_sync_log_rows (fun _ _ => Except.ok []) (fun _ => Except.error "x") "t1" "orders"
    9 2 Db.empty [] "x" "x" "x").2.2 rfl rfl rfl

/-- Witness for C2 at a concrete input: the retention-cleanup membership
characterization instantiated on a one-row log. -/
theorem C2_syncLog_append_only_witness :
    (⟨"t1", "orders", true, 5, 10, none, 100⟩ : SyncLogRow)
        ∈ cleanupSyncLogs 50 [⟨"t1", "orders", true, 5, 10, none, 100⟩]
      ↔ (⟨"t1", "orders", true, 5, 10, none, 100⟩ : SyncLogRow)
            ∈ [(⟨"t1", "orders", true, 5, 10, none, 100⟩ : SyncLogRow)]
          ∧ ¬((100 : Nat) < 50) :=
  C2_syncLog_append_only.2.2.1 50 [⟨"t1", "orders", true, 5, 10, none, 100⟩]
    ⟨"t1", "orders", true, 5, 10, none, 100⟩

/-- Witness for C7 at a concrete input: a forced sync runs every
requested type. -/
theorem C7_min_interval_guard_witness :
    syncTenantTypesRun true "t1" ["orders", "customers"] 5 [] = ["orders", "customers"] :=
  C7_min_interval_guard.2.2.1 "t1" ["orders", "customers"] 5 []
